import Mathlib

/-!
Verification of the EazyFind restaurant-search backend (Go) against its
natural-language specification.  The Go source in `handlers` (search
parameter parsing, dynamic SQL predicate building with positional
placeholders, count-then-fetch pagination) and `models` is shallowly
embedded below.  SQL query templates are represented as lists of
fragments, where a fragment is either a literal piece of text or a
positional placeholder `$n` (mirroring each `fmt.Sprintf("... $%d ...", idx)`
call in the source); `render` concatenates a fragment list back into the
exact query string the Go code produces.  Go `float64` values are
modelled as rationals, `[]interface{}` argument vectors as lists of a
sum type `SqlArg`, and the database as an oracle supplying the results
of the count/fetch round trips.
-/

/-- Fragment of a SQL query template: literal text or a positional
placeholder `$n` (1-indexed), as produced by `fmt.Sprintf` with `$%d`. -/
inductive Frag where
  | lit (s : String)
  | ph (n : Nat)
deriving DecidableEq, Repr

/-- Render one fragment to the text the Go `fmt.Sprintf` calls produce. -/
def renderFrag : Frag → String
  | .lit s => s
  | .ph n => "$" ++ toString n

/-- Render a fragment list to the concrete query string. -/
def render (fs : List Frag) : String :=
  fs.foldl (fun acc f => acc ++ renderFrag f) ""

/-- Placeholder indices occurring in a fragment list, in textual order
(with multiplicity). -/
def phOf (fs : List Frag) : List Nat :=
  fs.filterMap fun f => match f with | .ph n => some n | .lit _ => none

/-- Value appended to the query argument vector (`[]interface{}` in Go):
strings, integers, or float64 values modelled as rationals. -/
inductive SqlArg where
  | str (s : String)
  | int (n : Int)
  | rat (q : ℚ)
deriving DecidableEq, Repr

/-- Typed, defaulted filter set produced by `ParseSearchParams`
(Go struct `SearchParams`, field for field; float64 fields as `ℚ`). -/
structure SearchParams where
  page : Int
  limit : Int
  offset : Int
  name : String
  minCost : Int
  maxCost : Int
  rating : ℚ
  discount : ℚ
  free : Bool
  city : String
  area : String
  cuisineIds : String
  mealTypeIds : String
  cuisine : String
  mealType : String
  cuisines : String
  mealTypes : String
  lat : ℚ
  lon : ℚ
  radius : ℚ
  hasLocation : Bool
  sort : String
deriving DecidableEq, Repr

/-- Go constant `DefaultLimit = 12`. -/
def DefaultLimit : Int := 12

/-- Digits to the natural number they denote (base 10). -/
def digitsToNat (cs : List Char) : Nat :=
  cs.foldl (fun n c => n * 10 + (c.toNat - 48)) 0

/-- Model of Go `strconv.Atoi` success: optional sign followed by one or
more decimal digits; `none` on any other input (Go then returns 0 with an
error, which every call site in the source discards). -/
def parseIntGo (s : String) : Option Int :=
  match s.toList with
  | [] => none
  | '+' :: cs => if cs ≠ [] ∧ cs.all Char.isDigit then some (digitsToNat cs) else none
  | '-' :: cs => if cs ≠ [] ∧ cs.all Char.isDigit then some (-(digitsToNat cs : Int)) else none
  | cs => if cs.all Char.isDigit then some (digitsToNat cs) else none

/-- Value of Go `strconv.Atoi` as used in the source: the parsed integer,
or 0 when parsing fails (the error is discarded with `_`). -/
def atoiOrZero (s : String) : Int := (parseIntGo s).getD 0

/-- Unsigned decimal mantissa of a float: `digits`, `digits.digits`,
`.digits` or `digits.` (at least one digit overall), as accepted by Go
`strconv.ParseFloat` for plain decimal input. -/
def parseUnsignedDec (cs : List Char) : Option ℚ :=
  let intPart := cs.takeWhile Char.isDigit
  let rest := cs.dropWhile Char.isDigit
  match rest with
  | [] => if intPart = [] then none else some (digitsToNat intPart : ℚ)
  | '.' :: fracPart =>
      if fracPart.all Char.isDigit ∧ (intPart ≠ [] ∨ fracPart ≠ []) then
        some ((digitsToNat intPart : ℚ) + (digitsToNat fracPart : ℚ) / (10 ^ fracPart.length : ℚ))
      else none
  | _ => none

/-- Signed decimal integer (for a float exponent part). -/
def parseSignedDigits (cs : List Char) : Option Int :=
  match cs with
  | [] => none
  | '+' :: ds => if ds ≠ [] ∧ ds.all Char.isDigit then some (digitsToNat ds) else none
  | '-' :: ds => if ds ≠ [] ∧ ds.all Char.isDigit then some (-(digitsToNat ds : Int)) else none
  | ds => if ds.all Char.isDigit then some (digitsToNat ds) else none

/-- Model of Go `strconv.ParseFloat` success on decimal input: optional
sign, decimal mantissa, optional `e`/`E` exponent.  Returns the exact
rational value, or `none` on ill-formed input (Go then returns 0 with an
error, which every call site in the source discards). -/
def parseFloatGo (s : String) : Option ℚ :=
  let cs := s.toList
  let signAndRest : ℚ × List Char :=
    match cs with
    | '+' :: r => (1, r)
    | '-' :: r => (-1, r)
    | r => (1, r)
  let sign := signAndRest.1
  let body := signAndRest.2
  let mant := body.takeWhile fun c => !(c == 'e' || c == 'E')
  let expPart := body.dropWhile fun c => !(c == 'e' || c == 'E')
  match expPart with
  | [] => (parseUnsignedDec mant).map fun m => sign * m
  | _ :: ecs =>
      match parseUnsignedDec mant, parseSignedDigits ecs with
      | some m, some e => some (sign * m * (10 : ℚ) ^ e)
      | _, _ => none

/-- Value of Go `strconv.ParseFloat` as used in the source: the parsed
value, or 0 when parsing fails (the error is discarded with `_`). -/
def floatOrZero (s : String) : ℚ := (parseFloatGo s).getD 0

/-- Go `strings.Split(s, ",")` on the underlying character list: splits
at every comma, keeping empty segments (a trailing comma yields a final
empty segment). -/
def splitCommaCh : List Char → List (List Char)
  | [] => [[]]
  | c :: cs =>
      match splitCommaCh cs with
      | [] => [[]]
      | g :: gs => if c = ',' then [] :: g :: gs else (c :: g) :: gs

/-- Go `strings.Split(s, ",")`. -/
def splitComma (s : String) : List String :=
  (splitCommaCh s.toList).map fun cs => ⟨cs⟩

/-- Whitespace-trimming on a character list (both ends). -/
def trimCh (cs : List Char) : List Char :=
  ((cs.dropWhile Char.isWhitespace).reverse.dropWhile Char.isWhitespace).reverse

/-- Go `strings.TrimSpace`. -/
def trimGo (s : String) : String := ⟨trimCh s.toList⟩

/-- Go `ParseSearchParams`: extracts and normalizes restaurant search
filters from the URL query, supplied here as the map `query` from
parameter name to (first) value, with "" for an absent parameter
(the behaviour of `url.Values.Get`). -/
def ParseSearchParams (query : String → String) : SearchParams :=
  let page0 := atoiOrZero (query "page")
  let page := if page0 ≤ 0 then 1 else page0
  let name0 := query "name"
  let minCost0 := atoiOrZero (query "minCost")
  let maxCost0 := atoiOrZero (query "maxCost")
  let d := floatOrZero (query "discount")
  let latStr := query "lat"
  let lonStr := query "lon"
  let hasLoc : Bool := latStr != "" && lonStr != ""
  let radius0 := floatOrZero (query "radius")
  { page := page
    limit := DefaultLimit
    offset := (page - 1) * DefaultLimit
    name := if name0 = "" then query "q" else name0
    minCost := if minCost0 = 0 then atoiOrZero (query "min_cost") else minCost0
    maxCost := if maxCost0 = 0 then atoiOrZero (query "max_cost") else maxCost0
    rating := floatOrZero (query "rating")
    discount := if 0 < d then d / 100 else 0
    free := query "free" == "true"
    city := query "city"
    area := query "area"
    cuisineIds := query "cuisineIds"
    mealTypeIds := query "mealtypeIds"
    cuisine := query "cuisine"
    mealType := query "meal_type"
    cuisines := query "cuisines"
    mealTypes := query "mealtypes"
    lat := if hasLoc then floatOrZero latStr else 0
    lon := if hasLoc then floatOrZero lonStr else 0
    radius := if hasLoc then (if radius0 ≤ 0 then 50000 else radius0) else 0
    hasLocation := hasLoc
    sort := query "sort" }

/-- Accumulator threaded through `BuildSearchQueries`: the Go locals
`conditions`, `args` and `idx`. -/
structure BuildState where
  conds : List (List Frag)
  args : List SqlArg
  idx : Nat
deriving DecidableEq, Repr

/-- Initial accumulator: empty conditions and arguments, `idx = 1`. -/
def initAcc : BuildState := ⟨[], [], 1⟩

/-- Append one condition together with the arguments it consumes,
advancing `idx` by the number of appended arguments (the step every
filter block of `BuildSearchQueries` performs). -/
def addCond (a : BuildState) (c : List Frag) (vs : List SqlArg) : BuildState :=
  { conds := a.conds ++ [c], args := a.args ++ vs, idx := a.idx + vs.length }

/-- Distance expression of the fetch query: `ST_Distance` over placeholders
1 (longitude) and 2 (latitude) when coordinates are present (the source
computes it first, while `idx = 1`), else the literal `0.0`. -/
def distFrags (p : SearchParams) : List Frag :=
  if p.hasLocation then
    [.lit "ST_Distance(r.geo, ST_SetSRID(ST_MakePoint(", .ph 1, .lit ", ", .ph 2,
     .lit "), 4326))"]
  else [.lit "0.0"]

/-- Fixed 100km proximity-cutoff predicate, referencing the distance
placeholders `i-2` and `i-1` where `i` is the value of `idx` after the
two coordinate arguments were appended. -/
def cutoffCond (i : Nat) : List Frag :=
  [.lit "ST_DWithin(r.geo, ST_SetSRID(ST_MakePoint(", .ph (i - 2), .lit ", ", .ph (i - 1),
   .lit "), 4326), 100000)"]

/-- Case-insensitive city-match predicate `r.city ILIKE $i`. -/
def cityCond (i : Nat) : List Frag := [.lit "r.city ILIKE ", .ph i]

/-- User-radius predicate `ST_DWithin(..., $(i-2), $(i-1)), ..., $i)`:
reuses the two distance placeholders and binds the radius at `$i`. -/
def radiusCond (i : Nat) : List Frag :=
  [.lit "ST_DWithin(r.geo, ST_SetSRID(ST_MakePoint(", .ph (i - 2), .lit ", ", .ph (i - 1),
   .lit "), 4326), ", .ph i, .lit ")"]

/-- Name predicate: substring match on restaurant name or area, the same
placeholder written twice for the single appended argument. -/
def nameCond (i : Nat) : List Frag :=
  [.lit "(r.restaurant_name ILIKE ", .ph i, .lit " OR r.area ILIKE ", .ph i, .lit ")"]

/-- Area predicate `r.area ILIKE $i`. -/
def areaCond (i : Nat) : List Frag := [.lit "r.area ILIKE ", .ph i]

/-- Comma-joined run of `n` placeholders starting at `$i`, as built by the
`for` loops that grow the `placeholders` slice and join it with ",". -/
def inPh : Nat → Nat → List Frag
  | _, 0 => []
  | i, 1 => [.ph i]
  | i, n + 2 => .ph i :: .lit "," :: inPh (i + 1) (n + 1)

/-- Single-cuisine membership predicate (correlated IN subquery). -/
def cuisineCond (i : Nat) : List Frag :=
  [.lit "r.id IN (SELECT rc.restaurant_id FROM restaurant_cuisines rc JOIN cuisines c ON rc.cuisine_id = c.id WHERE c.cuisine_name ILIKE ",
   .ph i, .lit ")"]

/-- Cuisine name-list membership predicate with `n` placeholders from `$i`. -/
def cuisinesCond (i n : Nat) : List Frag :=
  .lit "r.id IN (SELECT rc.restaurant_id FROM restaurant_cuisines rc JOIN cuisines c ON rc.cuisine_id = c.id WHERE c.cuisine_name IN (" ::
    (inPh i n ++ [.lit "))"])

/-- Cuisine id-list membership predicate with `n` placeholders from `$i`. -/
def cuisineIdsCond (i n : Nat) : List Frag :=
  .lit "r.id IN (SELECT restaurant_id FROM restaurant_cuisines WHERE cuisine_id IN (" ::
    (inPh i n ++ [.lit "))"])

/-- Single meal-type membership predicate (correlated IN subquery). -/
def mealTypeCond (i : Nat) : List Frag :=
  [.lit "r.id IN (SELECT rmt.restaurant_id FROM restaurant_meal_types rmt JOIN meal_types m ON rmt.meal_type_id = m.id WHERE m.meal_type ILIKE ",
   .ph i, .lit ")"]

/-- Meal-type name-list membership predicate with `n` placeholders from `$i`. -/
def mealTypesCond (i n : Nat) : List Frag :=
  .lit "r.id IN (SELECT rmt.restaurant_id FROM restaurant_meal_types rmt JOIN meal_types m ON rmt.meal_type_id = m.id WHERE m.meal_type IN (" ::
    (inPh i n ++ [.lit "))"])

/-- Meal-type id-list membership predicate with `n` placeholders from `$i`. -/
def mealTypeIdsCond (i n : Nat) : List Frag :=
  .lit "r.id IN (SELECT restaurant_id FROM restaurant_meal_types WHERE meal_type_id IN (" ::
    (inPh i n ++ [.lit "))"])

/-- Minimum-cost predicate `r.cost_for_two >= $i`. -/
def minCostCond (i : Nat) : List Frag := [.lit "r.cost_for_two >= ", .ph i]

/-- Maximum-cost predicate `r.cost_for_two <= $i`. -/
def maxCostCond (i : Nat) : List Frag := [.lit "r.cost_for_two <= ", .ph i]

/-- Minimum-rating predicate `r.rating >= $i`. -/
def ratingCond (i : Nat) : List Frag := [.lit "r.rating >= ", .ph i]

/-- Minimum-discount predicate `r.effective_discount >= $i`. -/
def discountCond (i : Nat) : List Frag := [.lit "r.effective_discount >= ", .ph i]

/-- Free-offer predicate (no placeholder). -/
def freeCond : List Frag := [Frag.lit "r.free = true"]

/-- Unconditional duplicate-exclusion predicate (no placeholder). -/
def dupCond : List Frag := [Frag.lit "r.is_duplicate = false"]

/-- Geo block of `BuildSearchQueries`: when coordinates are present,
append longitude then latitude as the first two arguments, and for the
default ("best deals") sort also the fixed 100km cutoff predicate. -/
def geoBlock (p : SearchParams) (a : BuildState) : BuildState :=
  if p.hasLocation then
    let a2 : BuildState := { a with args := a.args ++ [.rat p.lon, .rat p.lat], idx := a.idx + 2 }
    if p.sort = "" ∨ p.sort = "discount" then addCond a2 (cutoffCond a2.idx) [] else a2
  else a

/-- City / radius block: city filter when a city is given, otherwise the
user-radius filter when coordinates are present (mutually exclusive). -/
def cityBlock (p : SearchParams) (a : BuildState) : BuildState :=
  if p.city ≠ "" then addCond a (cityCond a.idx) [.str p.city]
  else if p.hasLocation then addCond a (radiusCond a.idx) [.rat p.radius]
  else a

/-- Name block: substring match on name or area. -/
def nameBlock (p : SearchParams) (a : BuildState) : BuildState :=
  if p.name ≠ "" then addCond a (nameCond a.idx) [.str ("%" ++ p.name ++ "%")] else a

/-- Area block: substring match on area. -/
def areaBlock (p : SearchParams) (a : BuildState) : BuildState :=
  if p.area ≠ "" then addCond a (areaCond a.idx) [.str ("%" ++ p.area ++ "%")] else a

/-- Single-cuisine block. -/
def cuisineBlock (p : SearchParams) (a : BuildState) : BuildState :=
  if p.cuisine ≠ "" then addCond a (cuisineCond a.idx) [.str p.cuisine] else a

/-- Cuisine name-list block: one placeholder per comma-separated segment,
each segment appended trimmed. -/
def cuisinesBlock (p : SearchParams) (a : BuildState) : BuildState :=
  if p.cuisines ≠ "" then
    let names := splitComma p.cuisines
    addCond a (cuisinesCond a.idx names.length) (names.map fun s => .str (trimGo s))
  else a

/-- Cuisine id-list block: one placeholder per comma-separated segment,
each segment appended as-is (no trimming in the source). -/
def cuisineIdsBlock (p : SearchParams) (a : BuildState) : BuildState :=
  if p.cuisineIds ≠ "" then
    let ids := splitComma p.cuisineIds
    addCond a (cuisineIdsCond a.idx ids.length) (ids.map fun s => .str s)
  else a

/-- Single meal-type block. -/
def mealTypeBlock (p : SearchParams) (a : BuildState) : BuildState :=
  if p.mealType ≠ "" then addCond a (mealTypeCond a.idx) [.str p.mealType] else a

/-- Meal-type name-list block (segments trimmed). -/
def mealTypesBlock (p : SearchParams) (a : BuildState) : BuildState :=
  if p.mealTypes ≠ "" then
    let names := splitComma p.mealTypes
    addCond a (mealTypesCond a.idx names.length) (names.map fun s => .str (trimGo s))
  else a

/-- Meal-type id-list block (segments appended as-is). -/
def mealTypeIdsBlock (p : SearchParams) (a : BuildState) : BuildState :=
  if p.mealTypeIds ≠ "" then
    let ids := splitComma p.mealTypeIds
    addCond a (mealTypeIdsCond a.idx ids.length) (ids.map fun s => .str s)
  else a

/-- Minimum-cost block (added only for strictly positive values). -/
def minCostBlock (p : SearchParams) (a : BuildState) : BuildState :=
  if p.minCost > 0 then addCond a (minCostCond a.idx) [.int p.minCost] else a

/-- Maximum-cost block. -/
def maxCostBlock (p : SearchParams) (a : BuildState) : BuildState :=
  if p.maxCost > 0 then addCond a (maxCostCond a.idx) [.int p.maxCost] else a

/-- Minimum-rating block. -/
def ratingBlock (p : SearchParams) (a : BuildState) : BuildState :=
  if p.rating > 0 then addCond a (ratingCond a.idx) [.rat p.rating] else a

/-- Minimum-discount block. -/
def discountBlock (p : SearchParams) (a : BuildState) : BuildState :=
  if p.discount > 0 then addCond a (discountCond a.idx) [.rat p.discount] else a

/-- Free-offer block (no argument). -/
def freeBlock (p : SearchParams) (a : BuildState) : BuildState :=
  if p.free then addCond a freeCond [] else a

/-- Unconditional duplicate-exclusion block (no argument). -/
def dupBlock (a : BuildState) : BuildState := addCond a dupCond []

/-- Accumulator after the geo and city/radius blocks. -/
def acc0 (p : SearchParams) : BuildState := cityBlock p (geoBlock p initAcc)

/-- Accumulator after the name block. -/
def acc1 (p : SearchParams) : BuildState := nameBlock p (acc0 p)

/-- Accumulator after the area block. -/
def acc2 (p : SearchParams) : BuildState := areaBlock p (acc1 p)

/-- Accumulator after the single-cuisine block. -/
def acc3 (p : SearchParams) : BuildState := cuisineBlock p (acc2 p)

/-- Accumulator after the cuisine name-list block. -/
def acc4 (p : SearchParams) : BuildState := cuisinesBlock p (acc3 p)

/-- Accumulator after the cuisine id-list block. -/
def acc5 (p : SearchParams) : BuildState := cuisineIdsBlock p (acc4 p)

/-- Accumulator after the single meal-type block. -/
def acc6 (p : SearchParams) : BuildState := mealTypeBlock p (acc5 p)

/-- Accumulator after the meal-type name-list block. -/
def acc7 (p : SearchParams) : BuildState := mealTypesBlock p (acc6 p)

/-- Accumulator after the meal-type id-list block. -/
def acc8 (p : SearchParams) : BuildState := mealTypeIdsBlock p (acc7 p)

/-- Accumulator after the minimum-cost block. -/
def acc9 (p : SearchParams) : BuildState := minCostBlock p (acc8 p)

/-- Accumulator after the maximum-cost block. -/
def acc10 (p : SearchParams) : BuildState := maxCostBlock p (acc9 p)

/-- Accumulator after the minimum-rating block. -/
def acc11 (p : SearchParams) : BuildState := ratingBlock p (acc10 p)

/-- Accumulator after the minimum-discount block. -/
def acc12 (p : SearchParams) : BuildState := discountBlock p (acc11 p)

/-- Accumulator after the free-offer block. -/
def acc13 (p : SearchParams) : BuildState := freeBlock p (acc12 p)

/-- Final accumulator of `BuildSearchQueries`: all filter blocks in source
order, then the unconditional duplicate-exclusion predicate. -/
def buildAcc (p : SearchParams) : BuildState := dupBlock (acc13 p)

/-- Joins the rendered conditions with " AND " (Go `strings.Join`). -/
def joinAnd : List (List Frag) → List Frag
  | [] => []
  | [c] => c
  | c :: c2 :: cs => c ++ (.lit " AND " :: joinAnd (c2 :: cs))

/-- WHERE clause shared by the count and fetch templates. -/
def whereFrags (p : SearchParams) : List Frag :=
  .lit "WHERE " :: joinAnd (buildAcc p).conds

/-- Count query template `SELECT COUNT(*) FROM restaurants r WHERE ...`. -/
def countQueryFrags (p : SearchParams) : List Frag :=
  .lit "SELECT COUNT(*) FROM restaurants r " :: whereFrags p

/-- Projection columns of the fetch query (Go local `selectFields`). -/
def selectFields : String :=
  "r.id, r.restaurant_name, r.city, r.area, r.cost_for_two, r.rating, r.latitude, r.longitude, r.image_url, r.effective_discount, r.free, r.offer, r.percentage"

/-- Literal part of the fetch template between the distance expression and
the WHERE clause: the two correlated JSON-aggregate subqueries. -/
def resultMidLit : String :=
  " as distance,\n\t\t       COALESCE((SELECT json_agg(json_build_object(\x27id\x27, c.id, \x27cuisine_name\x27, c.cuisine_name)) FROM restaurant_cuisines rc JOIN cuisines c ON rc.cuisine_id = c.id WHERE rc.restaurant_id = r.id), \x27[]\x27) as cuisines,\n\t\t       COALESCE((SELECT json_agg(json_build_object(\x27id\x27, m.id, \x27meal_type\x27, m.meal_type)) FROM restaurant_meal_types rmt JOIN meal_types m ON rmt.meal_type_id = m.id WHERE rmt.restaurant_id = r.id), \x27[]\x27) as meal_types\n\t\tFROM restaurants r "

/-- Fetch query template: projection columns, distance expression, JSON
aggregates, then the shared WHERE clause. -/
def resultQueryFrags (p : SearchParams) : List Frag :=
  (.lit ("\n\t\tSELECT " ++ selectFields ++ ", ") :: distFrags p)
    ++ [.lit resultMidLit] ++ whereFrags p ++ [.lit "\n\t"]

/-- Go `BuildSearchQueries`: returns the count template, the fetch
template, and the positional argument vector. -/
def BuildSearchQueries (p : SearchParams) : List Frag × List Frag × List SqlArg :=
  (countQueryFrags p, resultQueryFrags p, (buildAcc p).args)

/-- Lookup entity for a culinary category (Go `models.Cuisine`). -/
structure Cuisine where
  id : Int
  cuisineName : String
deriving DecidableEq, Repr

/-- Lookup entity for a meal time/category (Go `models.MealType`). -/
structure MealType where
  id : Int
  mealType : String
deriving DecidableEq, Repr

/-- Restaurant entity (Go `models.Restaurant`; float64 fields as `ℚ`). -/
structure Restaurant where
  id : Int
  restaurantName : String
  url : String
  city : String
  area : String
  costForTwo : Int
  rating : ℚ
  page : Int
  offer : String
  percentage : String
  effectiveDiscount : ℚ
  free : Bool
  latitude : ℚ
  longitude : ℚ
  geoStatus : String
  imageURL : String
  distance : ℚ
  cuisines : List Cuisine
  mealTypes : List MealType
deriving DecidableEq, Repr

/-- Database oracle for `SearchHandler`: outcome of the count query and
of the fetch query.  Each fetched row is pre-decoded: `Except.error`
models a row on which `ScanRestaurant` fails (such rows are dropped). -/
structure SearchDb where
  countResult : Except String Int
  fetchResult : Except String (List (Except String Restaurant))
deriving Repr

/-- Body written by `SearchHandler`: a JSON object (result list, page
count, and — only on the full success path — the `total_count` field,
modelled as `Option`), or a plain HTTP error with a status code. -/
inductive SearchResponse where
  | json (restaurants : List Restaurant) (pages : Int) (totalCount : Option Int)
  | httpError (message : String) (status : Nat)
deriving DecidableEq, Repr

/-- Observable outcome of one `SearchHandler` request: the response, the
final fetch query if phase 2 executed (`none` = no fetch ran), and the
`hasExtraFields` flag passed to `ScanRestaurant` when rows are decoded. -/
structure SearchOutcome where
  response : SearchResponse
  fetchQuery : Option String
  scanHasExtraFields : Option Bool
deriving DecidableEq, Repr

/-- Total pages: Go `int(math.Ceil(float64(totalCount) / float64(p.Limit)))`. -/
def totalPagesFor (totalCount limitN : Int) : Int :=
  ⌈(totalCount : ℚ) / (limitN : ℚ)⌉

/-- ORDER BY clause selected by the sort key (Go `switch p.Sort`; every
unrecognized value keeps the preset discount-descending default). -/
def orderByFor (sort : String) : String :=
  if sort = "rating_desc" then "ORDER BY rating DESC, id ASC"
  else if sort = "cost_asc" then "ORDER BY cost_for_two ASC, id ASC"
  else "ORDER BY effective_discount DESC, id ASC"

/-- Go `SearchHandler`: count the matches, validate the requested page,
then fetch one ordered page with LIMIT/OFFSET inlined as literals. -/
def SearchHandler (p : SearchParams) (db : SearchDb) : SearchOutcome :=
  match db.countResult with
  | .error _ => ⟨.json [] 0 none, none, none⟩
  | .ok totalCount =>
    let totalPages := totalPagesFor totalCount p.limit
    if p.page > totalPages ∧ totalPages > 0 then
      ⟨.json [] totalPages none, none, none⟩
    else
      let finalQuery :=
        render (resultQueryFrags p) ++ " " ++ orderByFor p.sort
          ++ " LIMIT " ++ toString p.limit ++ " OFFSET " ++ toString p.offset
      match db.fetchResult with
      | .error _ => ⟨.httpError "Something went wrong" 400, some finalQuery, none⟩
      | .ok rows =>
          ⟨.json (rows.filterMap Except.toOption) totalPages (some totalCount),
           some finalQuery, some true⟩

/-- Fixed query of `GetRestaurantsByCityHandler` (verbatim literal). -/
def cityListingQuery : String :=
  "\n\t\t\tSELECT r.id, r.restaurant_name, r.city, r.area, r.cost_for_two, r.rating, r.latitude, r.longitude, r.image_url, r.effective_discount, r.free, r.offer, r.percentage,\n\t\t\t\tCOALESCE((SELECT json_agg(json_build_object(\x27id\x27, c.id, \x27cuisine_name\x27, c.cuisine_name)) FROM restaurant_cuisines rc JOIN cuisines c ON rc.cuisine_id = c.id WHERE rc.restaurant_id = r.id), \x27[]\x27) as cuisines,\n\t\t\t\tCOALESCE((SELECT json_agg(json_build_object(\x27id\x27, m.id, \x27meal_type\x27, m.meal_type)) FROM restaurant_meal_types rmt JOIN meal_types m ON rmt.meal_type_id = m.id WHERE rmt.restaurant_id = r.id), \x27[]\x27) as meal_types\n\t\t\tFROM restaurants r\n\t\t\tWHERE r.city ILIKE $1 AND r.is_duplicate = false\n\t\t\tORDER BY r.effective_discount DESC\n\t\t\tLIMIT 10\n\t\t"

/-- Database oracle for the city-listing handler. -/
structure CityDb where
  queryResult : Except String (List (Except String Restaurant))
deriving Repr

/-- Body written by `GetRestaurantsByCityHandler`: the bare JSON array of
restaurants, or a plain HTTP error. -/
inductive CityResponse where
  | json (restaurants : List Restaurant)
  | httpError (message : String) (status : Nat)
deriving DecidableEq, Repr

/-- Observable outcome of one city-listing request: the response, the
query sent to the database (`none` = no database call), and the
`hasExtraFields` flag passed to `ScanRestaurant` when rows are decoded. -/
structure CityOutcome where
  response : CityResponse
  executedQuery : Option String
  scanHasExtraFields : Option Bool
deriving DecidableEq, Repr

/-- Go `GetRestaurantsByCityHandler`: reject an empty city path segment
before any database call, otherwise run the fixed top-10 query and decode
rows without the distance column (`hasExtraFields = false`). -/
def GetRestaurantsByCityHandler (city : String) (db : CityDb) : CityOutcome :=
  if city = "" then ⟨.httpError "City is required" 400, none, none⟩
  else
    match db.queryResult with
    | .error _ => ⟨.httpError "Something went wrong" 400, some cityListingQuery, none⟩
    | .ok rows =>
        ⟨.json (rows.filterMap Except.toOption), some cityListingQuery, some false⟩

/-- Checks whether `pat` is an initial run of `l` (character lists). -/
def hasPrefixCh : List Char → List Char → Bool
  | _, [] => true
  | [], _ :: _ => false
  | a :: as, b :: bs => a == b && hasPrefixCh as bs

/-- Checks whether `pat` occurs contiguously anywhere in the second list. -/
def hasSubstrCh (pat : List Char) : List Char → Bool
  | [] => hasPrefixCh [] pat
  | c :: cs => hasPrefixCh (c :: cs) pat || hasSubstrCh pat cs

/-- Placeholder indices of all conditions, in order, with multiplicity. -/
def condsPh (cs : List (List Frag)) : List Nat := (cs.map phOf).flatten

/-- First occurrence of each value in a list, in order of first appearance. -/
def firstOcc : List Nat → List Nat
  | [] => []
  | x :: xs => x :: (firstOcc xs).filter fun y => y != x

/-- Concrete request refuting C4 as stated: geographic point active and a
sort key (`"rating_asc"`) that is neither `"rating_desc"` nor
`"cost_asc"`, so it maps to the default discount-descending ordering,
yet the 100km cutoff predicate is not generated. -/
def c4Params : SearchParams :=
  { page := 1, limit := 12, offset := 0, name := "", minCost := 0, maxCost := 0, rating := 0,
    discount := 0, free := false, city := "", area := "", cuisineIds := "", mealTypeIds := "",
    cuisine := "", mealType := "", cuisines := "", mealTypes := "", lat := 10, lon := 20,
    radius := 50000, hasLocation := true, sort := "rating_asc" }

/-- Concrete request witnessing the amended C4: same geographic point with
the empty sort key. -/
def c4WitnessParams : SearchParams :=
  { page := 1, limit := 12, offset := 0, name := "", minCost := 0, maxCost := 0, rating := 0,
    discount := 0, free := false, city := "", area := "", cuisineIds := "", mealTypeIds := "",
    cuisine := "", mealType := "", cuisines := "", mealTypes := "", lat := 10, lon := 20,
    radius := 50000, hasLocation := true, sort := "" }

/-- Request with every filter empty and no geographic point. -/
def emptyParams : SearchParams :=
  { page := 1, limit := 12, offset := 0, name := "", minCost := 0, maxCost := 0, rating := 0,
    discount := 0, free := false, city := "", area := "", cuisineIds := "", mealTypeIds := "",
    cuisine := "", mealType := "", cuisines := "", mealTypes := "", lat := 0, lon := 0,
    radius := 0, hasLocation := false, sort := "" }

/-- Total-count field of a search response, when the JSON body carries one. -/
def responseTotalCount : SearchResponse → Option Int
  | .json _ _ tc => tc
  | .httpError _ _ => none

/-- Database oracle whose count phase fails. -/
def dbCountError : SearchDb := ⟨.error "count failed", .ok []⟩

/-- Database oracle with 25 matches whose fetch phase fails. -/
def dbCount25FetchError : SearchDb := ⟨.ok 25, .error "disk full"⟩

/-- Database oracle with 25 matches and an empty fetched page. -/
def dbCount25Empty : SearchDb := ⟨.ok 25, .ok []⟩

/-- City-listing database oracle returning no rows (unknown city). -/
def cityDbEmpty : CityDb := ⟨.ok []⟩

/-- URL query with a non-numeric `lat`, a numeric `lon`, and nothing else. -/
def c9Query : String → String :=
  fun k => if k = "lat" then "abc" else if k = "lon" then "77.5946" else ""

/-- Request whose cuisine list has a trailing comma (an empty segment). -/
def c10Params : SearchParams := { emptyParams with cuisines := "Italian," }

/-- Invariant of the predicate builder, maintained from the end of the
geo and city/radius blocks to the final accumulator: `idx` is one past
the number of appended arguments; the placeholders of the distance
expression followed by those of the conditions (in generation order)
have first occurrences exactly 1, 2, ..., `idx - 1`; and any placeholder
index shared by two distinct conditions is a distance-expression index. -/
structure BuildInv (p : SearchParams) (a : BuildState) : Prop where
  idx_eq : a.idx = a.args.length + 1
  first_occ : firstOcc (phOf (distFrags p) ++ condsPh a.conds) = List.range' 1 (a.idx - 1)
  pairwise : a.conds.Pairwise fun c1 c2 => ∀ i ∈ phOf c1, i ∈ phOf c2 → i ∈ phOf (distFrags p)

theorem phOf_append (a b : List Frag) : phOf (a ++ b) = phOf a ++ phOf b := by
  simp [phOf, List.filterMap_append]

@[simp] theorem phOf_nil : phOf [] = [] := rfl

@[simp] theorem phOf_lit_cons (s : String) (fs : List Frag) :
    phOf (.lit s :: fs) = phOf fs := rfl

@[simp] theorem phOf_ph_cons (n : Nat) (fs : List Frag) :
    phOf (.ph n :: fs) = n :: phOf fs := rfl

@[simp] theorem phOf_cutoffCond (i : Nat) : phOf (cutoffCond i) = [i - 2, i - 1] := rfl

@[simp] theorem phOf_cityCond (i : Nat) : phOf (cityCond i) = [i] := rfl

@[simp] theorem phOf_radiusCond (i : Nat) : phOf (radiusCond i) = [i - 2, i - 1, i] := rfl

@[simp] theorem phOf_nameCond (i : Nat) : phOf (nameCond i) = [i, i] := rfl

@[simp] theorem phOf_areaCond (i : Nat) : phOf (areaCond i) = [i] := rfl

@[simp] theorem phOf_cuisineCond (i : Nat) : phOf (cuisineCond i) = [i] := rfl

@[simp] theorem phOf_mealTypeCond (i : Nat) : phOf (mealTypeCond i) = [i] := rfl

@[simp] theorem phOf_minCostCond (i : Nat) : phOf (minCostCond i) = [i] := rfl

@[simp] theorem phOf_maxCostCond (i : Nat) : phOf (maxCostCond i) = [i] := rfl

@[simp] theorem phOf_ratingCond (i : Nat) : phOf (ratingCond i) = [i] := rfl

@[simp] theorem phOf_discountCond (i : Nat) : phOf (discountCond i) = [i] := rfl

@[simp] theorem phOf_freeCond : phOf freeCond = [] := rfl

@[simp] theorem phOf_dupCond : phOf dupCond = [] := rfl

theorem phOf_inPh : ∀ (n i : Nat), phOf (inPh i n) = List.range' i n := by
  intro n
  induction n with
  | zero => intro i; rfl
  | succ m ih =>
    intro i
    match m with
    | 0 => simp [inPh, phOf, List.range']
    | m + 1 =>
      show phOf (.ph i :: .lit "," :: inPh (i + 1) (m + 1)) = _
      simp [ih (i + 1), List.range']

@[simp] theorem phOf_cuisinesCond (i n : Nat) :
    phOf (cuisinesCond i n) = List.range' i n := by
  simp [cuisinesCond, phOf_append, phOf_inPh]

@[simp] theorem phOf_cuisineIdsCond (i n : Nat) :
    phOf (cuisineIdsCond i n) = List.range' i n := by
  simp [cuisineIdsCond, phOf_append, phOf_inPh]

@[simp] theorem phOf_mealTypesCond (i n : Nat) :
    phOf (mealTypesCond i n) = List.range' i n := by
  simp [mealTypesCond, phOf_append, phOf_inPh]

@[simp] theorem phOf_mealTypeIdsCond (i n : Nat) :
    phOf (mealTypeIdsCond i n) = List.range' i n := by
  simp [mealTypeIdsCond, phOf_append, phOf_inPh]

@[simp] theorem condsPh_nil : condsPh [] = [] := rfl

@[simp] theorem condsPh_cons (c : List Frag) (cs : List (List Frag)) :
    condsPh (c :: cs) = phOf c ++ condsPh cs := rfl

theorem condsPh_append (cs ds : List (List Frag)) :
    condsPh (cs ++ ds) = condsPh cs ++ condsPh ds := by
  simp [condsPh]

theorem mem_condsPh {i : Nat} {cs : List (List Frag)} :
    i ∈ condsPh cs ↔ ∃ c ∈ cs, i ∈ phOf c := by
  simp [condsPh, List.mem_flatten]

theorem phOf_joinAnd : ∀ cs : List (List Frag), phOf (joinAnd cs) = condsPh cs := by
  intro cs
  induction cs with
  | nil => rfl
  | cons c cs ih =>
    match cs with
    | [] => simp [joinAnd, condsPh]
    | c2 :: cs2 =>
      show phOf (c ++ (.lit " AND " :: joinAnd (c2 :: cs2))) = _
      simp [phOf_append, ih]

@[simp] theorem mem_firstOcc {i : Nat} : ∀ {xs : List Nat}, i ∈ firstOcc xs ↔ i ∈ xs := by
  intro xs
  induction xs with
  | nil => simp [firstOcc]
  | cons x xs ih =>
    by_cases h : i = x
    · subst h; simp [firstOcc]
    · simp [firstOcc, List.mem_filter, h, ih, bne_iff_ne]

theorem firstOcc_filter (p : Nat → Bool) :
    ∀ xs : List Nat, (firstOcc xs).filter p = firstOcc (xs.filter p) := by
  intro xs
  induction xs with
  | nil => rfl
  | cons x xs ih =>
    by_cases h : p x = true
    · rw [show firstOcc (x :: xs) = x :: (firstOcc xs).filter (fun y => y != x) from rfl,
          List.filter_cons_of_pos h, List.filter_comm, ih,
          show (x :: xs).filter p = x :: xs.filter p from List.filter_cons_of_pos h]
      rfl
    · rw [show firstOcc (x :: xs) = x :: (firstOcc xs).filter (fun y => y != x) from rfl,
          List.filter_cons_of_neg (by simp [h]), List.filter_comm, ih,
          show (x :: xs).filter p = xs.filter p from List.filter_cons_of_neg (by simp [h])]
      apply List.filter_eq_self.mpr
      intro y hy
      have hy2 : y ∈ xs.filter p := mem_firstOcc.mp hy
      have hpy : p y = true := List.of_mem_filter hy2
      have hne : y ≠ x := fun he => h (he ▸ hpy)
      simp [hne]

theorem firstOcc_append (xs ys : List Nat) :
    firstOcc (xs ++ ys) = firstOcc xs ++ firstOcc (ys.filter fun y => !(xs.contains y)) := by
  induction xs with
  | nil => simp [firstOcc]
  | cons x xs ih =>
    rw [List.cons_append,
        show firstOcc (x :: (xs ++ ys)) = x :: (firstOcc (xs ++ ys)).filter (fun y => y != x)
          from rfl,
        ih, List.filter_append,
        show firstOcc (x :: xs) = x :: (firstOcc xs).filter (fun y => y != x) from rfl,
        List.cons_append]
    congr 1
    congr 1
    rw [firstOcc_filter, List.filter_filter]
    apply congrArg
    apply List.filter_congr
    intro y _
    by_cases h : y = x
    · subst h; simp
    · by_cases h2 : xs.contains y
      · simp [h, h2, bne_iff_ne]
      · simp [h, h2, bne_iff_ne]

theorem firstOcc_nodup : ∀ {xs : List Nat}, xs.Nodup → firstOcc xs = xs := by
  intro xs h
  induction xs with
  | nil => rfl
  | cons x xs ih =>
    rcases List.nodup_cons.mp h with ⟨hx, hnd⟩
    simp only [firstOcc, ih hnd]
    congr 1
    apply List.filter_eq_self.mpr
    intro y hy
    have : y ≠ x := fun he => hx (he ▸ hy)
    simp [this]

theorem range'_append_sum (s m n : Nat) :
    List.range' s m ++ List.range' (s + m) n = List.range' s (m + n) := by
  have h := List.range'_append s m n 1
  simp only [Nat.one_mul, Nat.mul_one] at h
  rw [Nat.add_comm n m] at h
  exact h

theorem mem_old_iff {p : SearchParams} {a : BuildState} (inv : BuildInv p a) (i : Nat) :
    i ∈ phOf (distFrags p) ++ condsPh a.conds ↔ 1 ≤ i ∧ i < a.idx := by
  rw [← mem_firstOcc, inv.first_occ, List.mem_range'_1]
  have := inv.idx_eq
  omega

theorem inv_addCond {p : SearchParams} {a : BuildState} (inv : BuildInv p a)
    (c : List Frag) (vs : List SqlArg)
    (hsub : ∀ i ∈ phOf c, i ∈ phOf (distFrags p) ∨ (a.idx ≤ i ∧ i < a.idx + vs.length))
    (hfo : firstOcc ((phOf c).filter fun i => decide (a.idx ≤ i)) =
      List.range' a.idx vs.length) :
    BuildInv p (addCond a c vs) := by
  have hidx := inv.idx_eq
  refine ⟨?_, ?_, ?_⟩
  · simp only [addCond, List.length_append]
    omega
  · show firstOcc (phOf (distFrags p) ++ condsPh (a.conds ++ [c])) = _
    rw [condsPh_append, ← List.append_assoc, firstOcc_append]
    have hfe : ((condsPh [c]).filter fun y =>
        !((phOf (distFrags p) ++ condsPh a.conds).contains y)) =
        (phOf c).filter fun i => decide (a.idx ≤ i) := by
      show ((phOf c ++ []).filter _) = _
      rw [List.append_nil]
      apply List.filter_congr
      intro i hi
      by_cases hle : a.idx ≤ i
      · have hni : i ∉ phOf (distFrags p) ++ condsPh a.conds := by
          rw [mem_old_iff inv]; omega
        simp [List.contains, List.elem_iff, hni, hle]
      · have hin : i ∈ phOf (distFrags p) ++ condsPh a.conds := by
          rcases hsub i hi with hd | hr
          · exact List.mem_append_left _ hd
          · omega
        simp [List.contains, List.elem_iff, hin, hle]
    rw [hfe, inv.first_occ, hfo]
    have hra := range'_append_sum 1 (a.idx - 1) vs.length
    rw [show 1 + (a.idx - 1) = a.idx from by omega] at hra
    rw [hra]
    show _ = List.range' 1 ((addCond a c vs).idx - 1)
    simp only [addCond]
    congr 1
    omega
  · show (a.conds ++ [c]).Pairwise _
    rw [List.pairwise_append]
    refine ⟨inv.pairwise, List.pairwise_singleton _ _, ?_⟩
    intro c1 hc1 c2 hc2 i hi1 hi2
    rcases List.mem_singleton.mp hc2
    have hlt : i < a.idx := by
      have : i ∈ phOf (distFrags p) ++ condsPh a.conds :=
        List.mem_append_right _ (mem_condsPh.mpr ⟨c1, hc1, hi1⟩)
      exact ((mem_old_iff inv i).mp this).2
    rcases hsub i hi2 with hd | hr
    · exact hd
    · omega

theorem fo_single (j : Nat) :
    firstOcc ([j].filter fun i => decide (j ≤ i)) = List.range' j 1 := by
  simp [firstOcc, List.range']

theorem fo_pair (j : Nat) :
    firstOcc ([j, j].filter fun i => decide (j ≤ i)) = List.range' j 1 := by
  simp [firstOcc, List.range']

theorem fo_range (j n : Nat) :
    firstOcc ((List.range' j n).filter fun i => decide (j ≤ i)) = List.range' j n := by
  have h1 : (List.range' j n).filter (fun i => decide (j ≤ i)) = List.range' j n := by
    apply List.filter_eq_self.mpr
    intro i hi
    have := (List.mem_range'_1.mp hi).1
    simpa using this
  rw [h1]
  exact firstOcc_nodup (List.nodup_range' j n)

theorem fo_nil (j : Nat) :
    firstOcc (([] : List Nat).filter fun i => decide (j ≤ i)) = List.range' j 0 := by
  simp [firstOcc, List.range']

theorem inv_nameBlock (p : SearchParams) {a : BuildState} (inv : BuildInv p a) :
    BuildInv p (nameBlock p a) := by
  unfold nameBlock
  split
  · refine inv_addCond inv _ _ ?_ ?_
    · intro i hi
      right
      simp at hi ⊢
      omega
    · simpa using fo_pair a.idx
  · exact inv

theorem inv_areaBlock (p : SearchParams) {a : BuildState} (inv : BuildInv p a) :
    BuildInv p (areaBlock p a) := by
  unfold areaBlock
  split
  · refine inv_addCond inv _ _ ?_ ?_
    · intro i hi
      right
      simp at hi ⊢
      omega
    · simpa using fo_single a.idx
  · exact inv

theorem inv_cuisineBlock (p : SearchParams) {a : BuildState} (inv : BuildInv p a) :
    BuildInv p (cuisineBlock p a) := by
  unfold cuisineBlock
  split
  · refine inv_addCond inv _ _ ?_ ?_
    · intro i hi
      right
      simp at hi ⊢
      omega
    · simpa using fo_single a.idx
  · exact inv

theorem inv_cuisinesBlock (p : SearchParams) {a : BuildState} (inv : BuildInv p a) :
    BuildInv p (cuisinesBlock p a) := by
  unfold cuisinesBlock
  split
  · refine inv_addCond inv _ _ ?_ ?_
    · intro i hi
      right
      simp only [phOf_cuisinesCond, List.mem_range'_1] at hi
      simp only [List.length_map]
      omega
    · simpa using fo_range a.idx (splitComma p.cuisines).length
  · exact inv

theorem inv_cuisineIdsBlock (p : SearchParams) {a : BuildState} (inv : BuildInv p a) :
    BuildInv p (cuisineIdsBlock p a) := by
  unfold cuisineIdsBlock
  split
  · refine inv_addCond inv _ _ ?_ ?_
    · intro i hi
      right
      simp only [phOf_cuisineIdsCond, List.mem_range'_1] at hi
      simp only [List.length_map]
      omega
    · simpa using fo_range a.idx (splitComma p.cuisineIds).length
  · exact inv

theorem inv_mealTypeBlock (p : SearchParams) {a : BuildState} (inv : BuildInv p a) :
    BuildInv p (mealTypeBlock p a) := by
  unfold mealTypeBlock
  split
  · refine inv_addCond inv _ _ ?_ ?_
    · intro i hi
      right
      simp at hi ⊢
      omega
    · simpa using fo_single a.idx
  · exact inv

theorem inv_mealTypesBlock (p : SearchParams) {a : BuildState} (inv : BuildInv p a) :
    BuildInv p (mealTypesBlock p a) := by
  unfold mealTypesBlock
  split
  · refine inv_addCond inv _ _ ?_ ?_
    · intro i hi
      right
      simp only [phOf_mealTypesCond, List.mem_range'_1] at hi
      simp only [List.length_map]
      omega
    · simpa using fo_range a.idx (splitComma p.mealTypes).length
  · exact inv

theorem inv_mealTypeIdsBlock (p : SearchParams) {a : BuildState} (inv : BuildInv p a) :
    BuildInv p (mealTypeIdsBlock p a) := by
  unfold mealTypeIdsBlock
  split
  · refine inv_addCond inv _ _ ?_ ?_
    · intro i hi
      right
      simp only [phOf_mealTypeIdsCond, List.mem_range'_1] at hi
      simp only [List.length_map]
      omega
    · simpa using fo_range a.idx (splitComma p.mealTypeIds).length
  · exact inv

theorem inv_minCostBlock (p : SearchParams) {a : BuildState} (inv : BuildInv p a) :
    BuildInv p (minCostBlock p a) := by
  unfold minCostBlock
  split
  · refine inv_addCond inv _ _ ?_ ?_
    · intro i hi
      right
      simp at hi ⊢
      omega
    · simpa using fo_single a.idx
  · exact inv

theorem inv_maxCostBlock (p : SearchParams) {a : BuildState} (inv : BuildInv p a) :
    BuildInv p (maxCostBlock p a) := by
  unfold maxCostBlock
  split
  · refine inv_addCond inv _ _ ?_ ?_
    · intro i hi
      right
      simp at hi ⊢
      omega
    · simpa using fo_single a.idx
  · exact inv

theorem inv_ratingBlock (p : SearchParams) {a : BuildState} (inv : BuildInv p a) :
    BuildInv p (ratingBlock p a) := by
  unfold ratingBlock
  split
  · refine inv_addCond inv _ _ ?_ ?_
    · intro i hi
      right
      simp at hi ⊢
      omega
    · simpa using fo_single a.idx
  · exact inv

theorem inv_discountBlock (p : SearchParams) {a : BuildState} (inv : BuildInv p a) :
    BuildInv p (discountBlock p a) := by
  unfold discountBlock
  split
  · refine inv_addCond inv _ _ ?_ ?_
    · intro i hi
      right
      simp at hi ⊢
      omega
    · simpa using fo_single a.idx
  · exact inv

theorem inv_freeBlock (p : SearchParams) {a : BuildState} (inv : BuildInv p a) :
    BuildInv p (freeBlock p a) := by
  unfold freeBlock
  split
  · refine inv_addCond inv _ _ ?_ ?_
    · intro i hi
      simp at hi
    · simpa using fo_nil a.idx
  · exact inv

theorem inv_dupBlock (p : SearchParams) {a : BuildState} (inv : BuildInv p a) :
    BuildInv p (dupBlock a) := by
  unfold dupBlock
  refine inv_addCond inv _ _ ?_ ?_
  · intro i hi
    simp at hi
  · simpa using fo_nil a.idx

theorem inv_acc0 (p : SearchParams) : BuildInv p (acc0 p) := by
  unfold acc0 cityBlock geoBlock
  cases hloc : p.hasLocation with
  | false =>
    simp only [Bool.false_eq_true, if_false]
    by_cases hcity : p.city ≠ ""
    · rw [if_pos hcity]
      refine ⟨by simp [addCond, initAcc], ?_, ?_⟩
      · simp [distFrags, hloc, addCond, initAcc, condsPh, firstOcc, List.range']
      · simp [addCond, initAcc]
    · rw [if_neg hcity]
      refine ⟨rfl, ?_, ?_⟩
      · simp [distFrags, hloc, initAcc, condsPh, firstOcc, List.range']
      · simp [initAcc]
  | true =>
    simp only [if_pos]
    by_cases hsort : p.sort = "" ∨ p.sort = "discount"
    · rw [if_pos hsort]
      by_cases hcity : p.city ≠ ""
      · rw [if_pos hcity]
        refine ⟨by simp [addCond, initAcc], ?_, ?_⟩
        · simp [distFrags, hloc, addCond, initAcc, condsPh]
          decide
        · simp [addCond, initAcc, distFrags, hloc]
      · rw [if_neg hcity]
        refine ⟨by simp [addCond, initAcc], ?_, ?_⟩
        · simp [distFrags, hloc, addCond, initAcc, condsPh]
          decide
        · simp [addCond, initAcc, distFrags, hloc]
    · rw [if_neg hsort]
      by_cases hcity : p.city ≠ ""
      · rw [if_pos hcity]
        refine ⟨by simp [addCond, initAcc], ?_, ?_⟩
        · simp [distFrags, hloc, addCond, initAcc, condsPh]
          decide
        · simp [addCond, initAcc, distFrags, hloc]
      · rw [if_neg hcity]
        refine ⟨by simp [addCond, initAcc], ?_, ?_⟩
        · simp [distFrags, hloc, addCond, initAcc, condsPh]
          decide
        · simp [addCond, initAcc, distFrags, hloc]

theorem inv_acc1 (p : SearchParams) : BuildInv p (acc1 p) := inv_nameBlock p (inv_acc0 p)

theorem inv_acc2 (p : SearchParams) : BuildInv p (acc2 p) := inv_areaBlock p (inv_acc1 p)

theorem inv_acc3 (p : SearchParams) : BuildInv p (acc3 p) := inv_cuisineBlock p (inv_acc2 p)

theorem inv_acc4 (p : SearchParams) : BuildInv p (acc4 p) := inv_cuisinesBlock p (inv_acc3 p)

theorem inv_acc5 (p : SearchParams) : BuildInv p (acc5 p) := inv_cuisineIdsBlock p (inv_acc4 p)

theorem inv_acc6 (p : SearchParams) : BuildInv p (acc6 p) := inv_mealTypeBlock p (inv_acc5 p)

theorem inv_acc7 (p : SearchParams) : BuildInv p (acc7 p) := inv_mealTypesBlock p (inv_acc6 p)

theorem inv_acc8 (p : SearchParams) : BuildInv p (acc8 p) := inv_mealTypeIdsBlock p (inv_acc7 p)

theorem inv_acc9 (p : SearchParams) : BuildInv p (acc9 p) := inv_minCostBlock p (inv_acc8 p)

theorem inv_acc10 (p : SearchParams) : BuildInv p (acc10 p) := inv_maxCostBlock p (inv_acc9 p)

theorem inv_acc11 (p : SearchParams) : BuildInv p (acc11 p) := inv_ratingBlock p (inv_acc10 p)

theorem inv_acc12 (p : SearchParams) : BuildInv p (acc12 p) := inv_discountBlock p (inv_acc11 p)

theorem inv_acc13 (p : SearchParams) : BuildInv p (acc13 p) := inv_freeBlock p (inv_acc12 p)

theorem inv_buildAcc (p : SearchParams) : BuildInv p (buildAcc p) := inv_dupBlock p (inv_acc13 p)

theorem phOf_whereFrags (p : SearchParams) :
    phOf (whereFrags p) = condsPh (buildAcc p).conds := by
  simp [whereFrags, phOf_joinAnd]

theorem phOf_countQueryFrags (p : SearchParams) :
    phOf (countQueryFrags p) = condsPh (buildAcc p).conds := by
  simp [countQueryFrags, phOf_whereFrags]

theorem phOf_resultQueryFrags (p : SearchParams) :
    phOf (resultQueryFrags p) = phOf (distFrags p) ++ condsPh (buildAcc p).conds := by
  simp [resultQueryFrags, phOf_append, phOf_whereFrags]

/-- C1: for every `SearchParams` value, the placeholder indices referenced
across the count template and the fetch template returned by
`BuildSearchQueries` are exactly 1..N where N is the length of the
returned argument vector (so under PostgreSQL positional-parameter
semantics each `$i` denotes argument vector element `i`), and both
templates are built around the one shared WHERE clause `whereFrags p`. -/
theorem C1_placeholder_coverage (p : SearchParams) :
    (∀ i : Nat, (i ∈ phOf (BuildSearchQueries p).1 ∨ i ∈ phOf (BuildSearchQueries p).2.1) ↔
      (1 ≤ i ∧ i ≤ (BuildSearchQueries p).2.2.length)) ∧
    (BuildSearchQueries p).1 = .lit "SELECT COUNT(*) FROM restaurants r " :: whereFrags p ∧
    (BuildSearchQueries p).2.1 =
      (.lit ("\n\t\tSELECT " ++ selectFields ++ ", ") :: distFrags p)
        ++ [.lit resultMidLit] ++ whereFrags p ++ [.lit "\n\t"] := by
  refine ⟨?_, rfl, rfl⟩
  intro i
  have inv := inv_buildAcc p
  have h := mem_old_iff inv i
  have hidx := inv.idx_eq
  show (i ∈ phOf (countQueryFrags p) ∨ i ∈ phOf (resultQueryFrags p)) ↔
    (1 ≤ i ∧ i ≤ (buildAcc p).args.length)
  rw [phOf_countQueryFrags, phOf_resultQueryFrags]
  constructor
  · rintro (hc | hr)
    · have hm := h.mp (List.mem_append_right _ hc)
      omega
    · have hm := h.mp hr
      omega
  · intro hle
    right
    apply h.mpr
    omega

/-- C2: `BuildSearchQueries` assigns placeholder indices strictly
sequentially — reading the fetch template left to right, the first
occurrences of the placeholder indices are exactly 1, 2, ..., N in that
order, with N the argument vector length — and any index shared by two
distinct predicates is one of the two distance-expression indices
(1 = longitude, 2 = latitude), which later geographic predicates reuse
by recorded index rather than re-appending the value. -/
theorem C2_sequential_placeholders (p : SearchParams) :
    firstOcc (phOf (BuildSearchQueries p).2.1) =
      List.range' 1 (BuildSearchQueries p).2.2.length ∧
    phOf (distFrags p) = (if p.hasLocation then [1, 2] else []) ∧
    (buildAcc p).conds.Pairwise
      (fun c1 c2 => ∀ i ∈ phOf c1, i ∈ phOf c2 → i ∈ phOf (distFrags p)) := by
  have inv := inv_buildAcc p
  have hidx := inv.idx_eq
  refine ⟨?_, ?_, inv.pairwise⟩
  · show firstOcc (phOf (resultQueryFrags p)) = List.range' 1 (buildAcc p).args.length
    rw [phOf_resultQueryFrags, inv.first_occ]
    congr 1
    omega
  · cases h : p.hasLocation
    · simp [distFrags, h]
    · simp [distFrags, h]

theorem mem_of_append_ite {c x : List Frag} {l1 l2 : List (List Frag)} {q : Prop}
    [Decidable q] (hl : l2 = l1 ++ (if q then [x] else [])) (h : c ∈ l2) :
    c ∈ l1 ∨ c = x := by
  subst hl
  rcases List.mem_append.mp h with h | h
  · exact Or.inl h
  · right
    split at h
    · simpa using h
    · simp at h

theorem conds_acc1 (p : SearchParams) : (acc1 p).conds =
    (acc0 p).conds ++ (if p.name ≠ "" then [nameCond (acc0 p).idx] else []) := by
  unfold acc1 nameBlock
  split
  next h => simp [addCond, h]
  next h => simp [addCond, h]

theorem conds_acc2 (p : SearchParams) : (acc2 p).conds =
    (acc1 p).conds ++ (if p.area ≠ "" then [areaCond (acc1 p).idx] else []) := by
  unfold acc2 areaBlock
  split
  next h => simp [addCond, h]
  next h => simp [addCond, h]

theorem conds_acc3 (p : SearchParams) : (acc3 p).conds =
    (acc2 p).conds ++ (if p.cuisine ≠ "" then [cuisineCond (acc2 p).idx] else []) := by
  unfold acc3 cuisineBlock
  split
  next h => simp [addCond, h]
  next h => simp [addCond, h]

theorem conds_acc4 (p : SearchParams) : (acc4 p).conds =
    (acc3 p).conds ++ (if p.cuisines ≠ "" then
      [cuisinesCond (acc3 p).idx (splitComma p.cuisines).length] else []) := by
  unfold acc4 cuisinesBlock
  split
  next h => simp [addCond, h]
  next h => simp [addCond, h]

theorem conds_acc5 (p : SearchParams) : (acc5 p).conds =
    (acc4 p).conds ++ (if p.cuisineIds ≠ "" then
      [cuisineIdsCond (acc4 p).idx (splitComma p.cuisineIds).length] else []) := by
  unfold acc5 cuisineIdsBlock
  split
  next h => simp [addCond, h]
  next h => simp [addCond, h]

theorem conds_acc6 (p : SearchParams) : (acc6 p).conds =
    (acc5 p).conds ++ (if p.mealType ≠ "" then [mealTypeCond (acc5 p).idx] else []) := by
  unfold acc6 mealTypeBlock
  split
  next h => simp [addCond, h]
  next h => simp [addCond, h]

theorem conds_acc7 (p : SearchParams) : (acc7 p).conds =
    (acc6 p).conds ++ (if p.mealTypes ≠ "" then
      [mealTypesCond (acc6 p).idx (splitComma p.mealTypes).length] else []) := by
  unfold acc7 mealTypesBlock
  split
  next h => simp [addCond, h]
  next h => simp [addCond, h]

theorem conds_acc8 (p : SearchParams) : (acc8 p).conds =
    (acc7 p).conds ++ (if p.mealTypeIds ≠ "" then
      [mealTypeIdsCond (acc7 p).idx (splitComma p.mealTypeIds).length] else []) := by
  unfold acc8 mealTypeIdsBlock
  split
  next h => simp [addCond, h]
  next h => simp [addCond, h]

theorem conds_acc9 (p : SearchParams) : (acc9 p).conds =
    (acc8 p).conds ++ (if p.minCost > 0 then [minCostCond (acc8 p).idx] else []) := by
  unfold acc9 minCostBlock
  split
  next h => simp [addCond, h]
  next h => simp [addCond, h]

theorem conds_acc10 (p : SearchParams) : (acc10 p).conds =
    (acc9 p).conds ++ (if p.maxCost > 0 then [maxCostCond (acc9 p).idx] else []) := by
  unfold acc10 maxCostBlock
  split
  next h => simp [addCond, h]
  next h => simp [addCond, h]

theorem conds_acc11 (p : SearchParams) : (acc11 p).conds =
    (acc10 p).conds ++ (if p.rating > 0 then [ratingCond (acc10 p).idx] else []) := by
  unfold acc11 ratingBlock
  split
  next h => simp [addCond, h]
  next h => simp [addCond, h]

theorem conds_acc12 (p : SearchParams) : (acc12 p).conds =
    (acc11 p).conds ++ (if p.discount > 0 then [discountCond (acc11 p).idx] else []) := by
  unfold acc12 discountBlock
  split
  next h => simp [addCond, h]
  next h => simp [addCond, h]

theorem conds_acc13 (p : SearchParams) : (acc13 p).conds =
    (acc12 p).conds ++ (if p.free = true then [freeCond] else []) := by
  unfold acc13 freeBlock
  split
  next h => simp [addCond, h]
  next h => simp [addCond, h]

theorem conds_buildAcc (p : SearchParams) :
    (buildAcc p).conds = (acc13 p).conds ++ [dupCond] := by
  simp [buildAcc, dupBlock, addCond]

theorem mem_conds_buildAcc {p : SearchParams} {c : List Frag}
    (h : c ∈ (buildAcc p).conds) :
    c ∈ (acc0 p).conds ∨ (∃ i, c = nameCond i) ∨ (∃ i, c = areaCond i) ∨
    (∃ i, c = cuisineCond i) ∨ (∃ i n, c = cuisinesCond i n) ∨
    (∃ i n, c = cuisineIdsCond i n) ∨ (∃ i, c = mealTypeCond i) ∨
    (∃ i n, c = mealTypesCond i n) ∨ (∃ i n, c = mealTypeIdsCond i n) ∨
    (∃ i, c = minCostCond i) ∨ (∃ i, c = maxCostCond i) ∨ (∃ i, c = ratingCond i) ∨
    (∃ i, c = discountCond i) ∨ c = freeCond ∨ c = dupCond := by
  rw [conds_buildAcc] at h
  rcases List.mem_append.mp h with h | h
  case inr =>
    right; right; right; right; right; right; right; right; right; right; right; right; right
    right
    simpa using h
  rcases mem_of_append_ite (conds_acc13 p) h with h | rfl
  case inr =>
    right; right; right; right; right; right; right; right; right; right; right; right; right
    left; rfl
  rcases mem_of_append_ite (conds_acc12 p) h with h | rfl
  case inr =>
    right; right; right; right; right; right; right; right; right; right; right; right
    left; exact ⟨_, rfl⟩
  rcases mem_of_append_ite (conds_acc11 p) h with h | rfl
  case inr =>
    right; right; right; right; right; right; right; right; right; right; right
    left; exact ⟨_, rfl⟩
  rcases mem_of_append_ite (conds_acc10 p) h with h | rfl
  case inr =>
    right; right; right; right; right; right; right; right; right; right
    left; exact ⟨_, rfl⟩
  rcases mem_of_append_ite (conds_acc9 p) h with h | rfl
  case inr =>
    right; right; right; right; right; right; right; right; right
    left; exact ⟨_, rfl⟩
  rcases mem_of_append_ite (conds_acc8 p) h with h | rfl
  case inr =>
    right; right; right; right; right; right; right; right
    left; exact ⟨_, _, rfl⟩
  rcases mem_of_append_ite (conds_acc7 p) h with h | rfl
  case inr =>
    right; right; right; right; right; right; right
    left; exact ⟨_, _, rfl⟩
  rcases mem_of_append_ite (conds_acc6 p) h with h | rfl
  case inr =>
    right; right; right; right; right; right
    left; exact ⟨_, rfl⟩
  rcases mem_of_append_ite (conds_acc5 p) h with h | rfl
  case inr =>
    right; right; right; right; right
    left; exact ⟨_, _, rfl⟩
  rcases mem_of_append_ite (conds_acc4 p) h with h | rfl
  case inr =>
    right; right; right; right
    left; exact ⟨_, _, rfl⟩
  rcases mem_of_append_ite (conds_acc3 p) h with h | rfl
  case inr =>
    right; right; right
    left; exact ⟨_, rfl⟩
  rcases mem_of_append_ite (conds_acc2 p) h with h | rfl
  case inr =>
    right; right
    left; exact ⟨_, rfl⟩
  rcases mem_of_append_ite (conds_acc1 p) h with h | rfl
  case inr =>
    right
    left; exact ⟨_, rfl⟩
  exact Or.inl h

theorem conds_acc0 (p : SearchParams) : (acc0 p).conds =
    (if p.hasLocation = true ∧ (p.sort = "" ∨ p.sort = "discount") then [cutoffCond 3]
     else []) ++
    (if p.city ≠ "" then [cityCond (if p.hasLocation = true then 3 else 1)]
     else if p.hasLocation = true then [radiusCond 3] else []) := by
  unfold acc0 cityBlock geoBlock
  cases hloc : p.hasLocation
  · by_cases hcity : p.city ≠ "" <;>
      by_cases hsort : p.sort = "" ∨ p.sort = "discount" <;>
        simp [addCond, initAcc, hloc, hcity, hsort]
  · by_cases hcity : p.city ≠ "" <;>
      by_cases hsort : p.sort = "" ∨ p.sort = "discount" <;>
        simp [addCond, initAcc, hloc, hcity, hsort]

theorem args_acc0 (p : SearchParams) : (acc0 p).args =
    (if p.hasLocation = true then [SqlArg.rat p.lon, SqlArg.rat p.lat] else []) ++
    (if p.city ≠ "" then [SqlArg.str p.city]
     else if p.hasLocation = true then [SqlArg.rat p.radius] else []) := by
  unfold acc0 cityBlock geoBlock
  cases hloc : p.hasLocation
  · by_cases hcity : p.city ≠ "" <;>
      by_cases hsort : p.sort = "" ∨ p.sort = "discount" <;>
        simp [addCond, initAcc, hloc, hcity, hsort]
  · by_cases hcity : p.city ≠ "" <;>
      by_cases hsort : p.sort = "" ∨ p.sort = "discount" <;>
        simp [addCond, initAcc, hloc, hcity, hsort]

theorem mem_buildAcc_of_mem_acc0 {p : SearchParams} {c : List Frag}
    (h : c ∈ (acc0 p).conds) : c ∈ (buildAcc p).conds := by
  rw [conds_buildAcc]
  apply List.mem_append_left
  rw [conds_acc13]
  apply List.mem_append_left
  rw [conds_acc12]
  apply List.mem_append_left
  rw [conds_acc11]
  apply List.mem_append_left
  rw [conds_acc10]
  apply List.mem_append_left
  rw [conds_acc9]
  apply List.mem_append_left
  rw [conds_acc8]
  apply List.mem_append_left
  rw [conds_acc7]
  apply List.mem_append_left
  rw [conds_acc6]
  apply List.mem_append_left
  rw [conds_acc5]
  apply List.mem_append_left
  rw [conds_acc4]
  apply List.mem_append_left
  rw [conds_acc3]
  apply List.mem_append_left
  rw [conds_acc2]
  apply List.mem_append_left
  rw [conds_acc1]
  apply List.mem_append_left
  exact h

theorem mem_buildAcc_of_mem_acc4 {p : SearchParams} {c : List Frag}
    (h : c ∈ (acc4 p).conds) : c ∈ (buildAcc p).conds := by
  rw [conds_buildAcc]
  apply List.mem_append_left
  rw [conds_acc13]
  apply List.mem_append_left
  rw [conds_acc12]
  apply List.mem_append_left
  rw [conds_acc11]
  apply List.mem_append_left
  rw [conds_acc10]
  apply List.mem_append_left
  rw [conds_acc9]
  apply List.mem_append_left
  rw [conds_acc8]
  apply List.mem_append_left
  rw [conds_acc7]
  apply List.mem_append_left
  rw [conds_acc6]
  apply List.mem_append_left
  rw [conds_acc5]
  apply List.mem_append_left
  exact h

theorem append_ext_trans {α : Type} {l1 l2 l3 : List α}
    (h1 : ∃ t, l2 = l1 ++ t) (h2 : ∃ t, l3 = l2 ++ t) : ∃ t, l3 = l1 ++ t := by
  rcases h1 with ⟨t1, rfl⟩
  rcases h2 with ⟨t2, rfl⟩
  exact ⟨t1 ++ t2, List.append_assoc _ _ _⟩

theorem args_ext_acc1 (p : SearchParams) : ∃ t, (acc1 p).args = (acc0 p).args ++ t := by
  unfold acc1 nameBlock
  split
  · exact ⟨_, rfl⟩
  · exact ⟨[], (List.append_nil _).symm⟩

theorem args_ext_acc2 (p : SearchParams) : ∃ t, (acc2 p).args = (acc1 p).args ++ t := by
  unfold acc2 areaBlock
  split
  · exact ⟨_, rfl⟩
  · exact ⟨[], (List.append_nil _).symm⟩

theorem args_ext_acc3 (p : SearchParams) : ∃ t, (acc3 p).args = (acc2 p).args ++ t := by
  unfold acc3 cuisineBlock
  split
  · exact ⟨_, rfl⟩
  · exact ⟨[], (List.append_nil _).symm⟩

theorem args_ext_acc4 (p : SearchParams) : ∃ t, (acc4 p).args = (acc3 p).args ++ t := by
  unfold acc4 cuisinesBlock
  split
  · exact ⟨_, rfl⟩
  · exact ⟨[], (List.append_nil _).symm⟩

theorem args_ext_acc5 (p : SearchParams) : ∃ t, (acc5 p).args = (acc4 p).args ++ t := by
  unfold acc5 cuisineIdsBlock
  split
  · exact ⟨_, rfl⟩
  · exact ⟨[], (List.append_nil _).symm⟩

theorem args_ext_acc6 (p : SearchParams) : ∃ t, (acc6 p).args = (acc5 p).args ++ t := by
  unfold acc6 mealTypeBlock
  split
  · exact ⟨_, rfl⟩
  · exact ⟨[], (List.append_nil _).symm⟩

theorem args_ext_acc7 (p : SearchParams) : ∃ t, (acc7 p).args = (acc6 p).args ++ t := by
  unfold acc7 mealTypesBlock
  split
  · exact ⟨_, rfl⟩
  · exact ⟨[], (List.append_nil _).symm⟩

theorem args_ext_acc8 (p : SearchParams) : ∃ t, (acc8 p).args = (acc7 p).args ++ t := by
  unfold acc8 mealTypeIdsBlock
  split
  · exact ⟨_, rfl⟩
  · exact ⟨[], (List.append_nil _).symm⟩

theorem args_ext_acc9 (p : SearchParams) : ∃ t, (acc9 p).args = (acc8 p).args ++ t := by
  unfold acc9 minCostBlock
  split
  · exact ⟨_, rfl⟩
  · exact ⟨[], (List.append_nil _).symm⟩

theorem args_ext_acc10 (p : SearchParams) : ∃ t, (acc10 p).args = (acc9 p).args ++ t := by
  unfold acc10 maxCostBlock
  split
  · exact ⟨_, rfl⟩
  · exact ⟨[], (List.append_nil _).symm⟩

theorem args_ext_acc11 (p : SearchParams) : ∃ t, (acc11 p).args = (acc10 p).args ++ t := by
  unfold acc11 ratingBlock
  split
  · exact ⟨_, rfl⟩
  · exact ⟨[], (List.append_nil _).symm⟩

theorem args_ext_acc12 (p : SearchParams) : ∃ t, (acc12 p).args = (acc11 p).args ++ t := by
  unfold acc12 discountBlock
  split
  · exact ⟨_, rfl⟩
  · exact ⟨[], (List.append_nil _).symm⟩

theorem args_ext_acc13 (p : SearchParams) : ∃ t, (acc13 p).args = (acc12 p).args ++ t := by
  unfold acc13 freeBlock
  split
  · exact ⟨_, rfl⟩
  · exact ⟨[], (List.append_nil _).symm⟩

theorem args_ext_dup (p : SearchParams) : ∃ t, (buildAcc p).args = (acc13 p).args ++ t :=
  ⟨[], rfl⟩

theorem args_ext_from_acc0 (p : SearchParams) :
    ∃ t, (buildAcc p).args = (acc0 p).args ++ t :=
  append_ext_trans (args_ext_acc1 p) (append_ext_trans (args_ext_acc2 p)
    (append_ext_trans (args_ext_acc3 p) (append_ext_trans (args_ext_acc4 p)
      (append_ext_trans (args_ext_acc5 p) (append_ext_trans (args_ext_acc6 p)
        (append_ext_trans (args_ext_acc7 p) (append_ext_trans (args_ext_acc8 p)
          (append_ext_trans (args_ext_acc9 p) (append_ext_trans (args_ext_acc10 p)
            (append_ext_trans (args_ext_acc11 p) (append_ext_trans (args_ext_acc12 p)
              (append_ext_trans (args_ext_acc13 p) (args_ext_dup p)))))))))))))

theorem args_ext_from_acc4 (p : SearchParams) :
    ∃ t, (buildAcc p).args = (acc4 p).args ++ t :=
  append_ext_trans (args_ext_acc5 p) (append_ext_trans (args_ext_acc6 p)
    (append_ext_trans (args_ext_acc7 p) (append_ext_trans (args_ext_acc8 p)
      (append_ext_trans (args_ext_acc9 p) (append_ext_trans (args_ext_acc10 p)
        (append_ext_trans (args_ext_acc11 p) (append_ext_trans (args_ext_acc12 p)
          (append_ext_trans (args_ext_acc13 p) (args_ext_dup p)))))))))

theorem take_left_of_append {α : Type} (l t : List α) : (l ++ t).take l.length = l := by
  simp

theorem cutoff_mem_iff (p : SearchParams) :
    cutoffCond 3 ∈ (buildAcc p).conds ↔
      (p.hasLocation = true ∧ (p.sort = "" ∨ p.sort = "discount")) := by
  constructor
  · intro h
    rcases mem_conds_buildAcc h with h | ⟨i, h⟩ | ⟨i, h⟩ | ⟨i, h⟩ | ⟨i, n, h⟩ | ⟨i, n, h⟩ |
      ⟨i, h⟩ | ⟨i, n, h⟩ | ⟨i, n, h⟩ | ⟨i, h⟩ | ⟨i, h⟩ | ⟨i, h⟩ | ⟨i, h⟩ | h | h
    · rw [conds_acc0] at h
      rcases List.mem_append.mp h with h | h
      · split at h
        next hq => exact hq
        next => simp at h
      · exfalso
        split at h
        · simp only [List.mem_singleton] at h
          split at h <;> simp [cutoffCond, cityCond] at h
        · split at h
          · simp only [List.mem_singleton] at h
            simp [cutoffCond, radiusCond] at h
          · simp at h
    · exact absurd h (by simp [cutoffCond, nameCond])
    · exact absurd h (by simp [cutoffCond, areaCond])
    · exact absurd h (by simp [cutoffCond, cuisineCond])
    · exact absurd h (by simp [cutoffCond, cuisinesCond])
    · exact absurd h (by simp [cutoffCond, cuisineIdsCond])
    · exact absurd h (by simp [cutoffCond, mealTypeCond])
    · exact absurd h (by simp [cutoffCond, mealTypesCond])
    · exact absurd h (by simp [cutoffCond, mealTypeIdsCond])
    · exact absurd h (by simp [cutoffCond, minCostCond])
    · exact absurd h (by simp [cutoffCond, maxCostCond])
    · exact absurd h (by simp [cutoffCond, ratingCond])
    · exact absurd h (by simp [cutoffCond, discountCond])
    · exact absurd h (by simp [cutoffCond, freeCond])
    · exact absurd h (by simp [cutoffCond, dupCond])
  · rintro ⟨hloc, hsort⟩
    apply mem_buildAcc_of_mem_acc0
    rw [conds_acc0]
    apply List.mem_append_left
    rw [if_pos ⟨hloc, hsort⟩]
    simp

/-- C4 counterexample: `c4Params` has an active geographic point and the
sort key `"rating_asc"`, which is neither `"rating_desc"` nor
`"cost_asc"` and therefore maps to the default discount-descending
ORDER BY, yet the fixed 100000-meter proximity-cutoff predicate is
absent from the generated conditions — refuting the claim that every
default-ordered sort value triggers the cutoff. -/
theorem C4_counterexample :
    c4Params.hasLocation = true ∧ c4Params.sort ≠ "rating_desc" ∧
    c4Params.sort ≠ "cost_asc" ∧
    orderByFor c4Params.sort = "ORDER BY effective_discount DESC, id ASC" ∧
    cutoffCond 3 ∉ (buildAcc c4Params).conds := by
  refine ⟨rfl, by decide, by decide, rfl, ?_⟩
  rw [cutoff_mem_iff]
  decide

/-- C4 amended: for every request with an active geographic point, the
fixed 100000-meter proximity-cutoff predicate is generated exactly when
the sort key is `""` or `"discount"` (regardless of the effective
radius); for any other sort value — including unrecognized ones that
still map to the default discount-descending ordering — it is absent. -/
theorem C4_cutoff_iff_default_sort (p : SearchParams) (hloc : p.hasLocation = true) :
    cutoffCond 3 ∈ (buildAcc p).conds ↔ (p.sort = "" ∨ p.sort = "discount") := by
  rw [cutoff_mem_iff]
  simp [hloc]

/-- C4 witness: the amended statement applied to the concrete request
`c4WitnessParams` (geographic point active, empty sort key). -/
theorem C4_cutoff_iff_default_sort_witness :
    cutoffCond 3 ∈ (buildAcc c4WitnessParams).conds :=
  (C4_cutoff_iff_default_sort c4WitnessParams rfl).mpr (Or.inl rfl)

theorem radius_not_mem_of_city {p : SearchParams} (hcity : p.city ≠ "") (i : Nat) :
    radiusCond i ∉ (buildAcc p).conds := by
  intro h
  rcases mem_conds_buildAcc h with h | ⟨j, h⟩ | ⟨j, h⟩ | ⟨j, h⟩ | ⟨j, n, h⟩ | ⟨j, n, h⟩ |
    ⟨j, h⟩ | ⟨j, n, h⟩ | ⟨j, n, h⟩ | ⟨j, h⟩ | ⟨j, h⟩ | ⟨j, h⟩ | ⟨j, h⟩ | h | h
  · rw [conds_acc0] at h
    rcases List.mem_append.mp h with h | h
    · split at h
      · simp only [List.mem_singleton] at h
        simp [radiusCond, cutoffCond] at h
      · simp at h
    · rw [if_pos hcity] at h
      simp only [List.mem_singleton] at h
      simp [radiusCond, cityCond] at h
  · simp [radiusCond, nameCond] at h
  · simp [radiusCond, areaCond] at h
  · simp [radiusCond, cuisineCond] at h
  · simp [radiusCond, cuisinesCond] at h
  · simp [radiusCond, cuisineIdsCond] at h
  · simp [radiusCond, mealTypeCond] at h
  · simp [radiusCond, mealTypesCond] at h
  · simp [radiusCond, mealTypeIdsCond] at h
  · simp [radiusCond, minCostCond] at h
  · simp [radiusCond, maxCostCond] at h
  · simp [radiusCond, ratingCond] at h
  · simp [radiusCond, discountCond] at h
  · simp [radiusCond, freeCond] at h
  · simp [radiusCond, dupCond] at h

theorem city_not_mem_of_no_city {p : SearchParams} (hcity : p.city = "") (i : Nat) :
    cityCond i ∉ (buildAcc p).conds := by
  intro h
  rcases mem_conds_buildAcc h with h | ⟨j, h⟩ | ⟨j, h⟩ | ⟨j, h⟩ | ⟨j, n, h⟩ | ⟨j, n, h⟩ |
    ⟨j, h⟩ | ⟨j, n, h⟩ | ⟨j, n, h⟩ | ⟨j, h⟩ | ⟨j, h⟩ | ⟨j, h⟩ | ⟨j, h⟩ | h | h
  · rw [conds_acc0] at h
    rcases List.mem_append.mp h with h | h
    · split at h
      · simp only [List.mem_singleton] at h
        simp [cityCond, cutoffCond] at h
      · simp at h
    · rw [if_neg (by simp [hcity])] at h
      split at h
      · simp only [List.mem_singleton] at h
        simp [cityCond, radiusCond] at h
      · simp at h
  · simp [cityCond, nameCond] at h
  · simp [cityCond, areaCond] at h
  · simp [cityCond, cuisineCond] at h
  · simp [cityCond, cuisinesCond] at h
  · simp [cityCond, cuisineIdsCond] at h
  · simp [cityCond, mealTypeCond] at h
  · simp [cityCond, mealTypesCond] at h
  · simp [cityCond, mealTypeIdsCond] at h
  · simp [cityCond, minCostCond] at h
  · simp [cityCond, maxCostCond] at h
  · simp [cityCond, ratingCond] at h
  · simp [cityCond, discountCond] at h
  · simp [cityCond, freeCond] at h
  · simp [cityCond, dupCond] at h

/-- C3: the case-insensitive city predicate and the user-radius predicate
are mutually exclusive.  With a non-empty city, `BuildSearchQueries`
generates the `r.city ILIKE` predicate and never the `ST_DWithin`
predicate bound to the radius argument; with an active geographic point
and empty city, it generates the radius predicate with the radius value
as third argument (after longitude and latitude), and no city predicate. -/
theorem C3_city_radius_exclusive (p : SearchParams) :
    (p.city ≠ "" →
      cityCond (if p.hasLocation = true then 3 else 1) ∈ (buildAcc p).conds ∧
      (∀ i, radiusCond i ∉ (buildAcc p).conds)) ∧
    (p.city = "" → p.hasLocation = true →
      radiusCond 3 ∈ (buildAcc p).conds ∧
      (buildAcc p).args.take 3 = [.rat p.lon, .rat p.lat, .rat p.radius] ∧
      (∀ i, cityCond i ∉ (buildAcc p).conds)) := by
  constructor
  · intro hcity
    refine ⟨?_, radius_not_mem_of_city hcity⟩
    apply mem_buildAcc_of_mem_acc0
    rw [conds_acc0]
    apply List.mem_append_right
    rw [if_pos hcity]
    simp
  · intro hcity hloc
    refine ⟨?_, ?_, city_not_mem_of_no_city hcity⟩
    · apply mem_buildAcc_of_mem_acc0
      rw [conds_acc0]
      apply List.mem_append_right
      rw [if_neg (by simp [hcity]), if_pos hloc]
      simp
    · rcases args_ext_from_acc0 p with ⟨t, ht⟩
      have h0 : (acc0 p).args = [.rat p.lon, .rat p.lat, .rat p.radius] := by
        rw [args_acc0, if_pos hloc, if_neg (by simp [hcity]), if_pos hloc]
        rfl
      rw [ht, h0]
      exact take_left_of_append [.rat p.lon, .rat p.lat, .rat p.radius] t

/-- C3 witness: the theorem applied to two concrete requests — one with a
city (city predicate present, no radius predicate) and one with a
geographic point and no city (radius predicate present, radius bound as
third argument). -/
theorem C3_city_radius_exclusive_witness :
    (cityCond 3 ∈ (buildAcc { c4WitnessParams with city := "Pune" }).conds ∧
      radiusCond 3 ∉ (buildAcc { c4WitnessParams with city := "Pune" }).conds) ∧
    (radiusCond 3 ∈ (buildAcc c4WitnessParams).conds ∧
      (buildAcc c4WitnessParams).args.take 3 =
        [.rat c4WitnessParams.lon, .rat c4WitnessParams.lat, .rat c4WitnessParams.radius]) := by
  refine ⟨⟨?_, ?_⟩, ?_, ?_⟩
  · have h := ((C3_city_radius_exclusive { c4WitnessParams with city := "Pune" }).1
      (by decide)).1
    simpa using h
  · exact ((C3_city_radius_exclusive { c4WitnessParams with city := "Pune" }).1
      (by decide)).2 3
  · exact ((C3_city_radius_exclusive c4WitnessParams).2 rfl rfl).1
  · exact ((C3_city_radius_exclusive c4WitnessParams).2 rfl rfl).2.1

theorem totalPages_25_12 : totalPagesFor 25 12 = 3 := by
  unfold totalPagesFor
  rw [show (((25 : Int) : ℚ) / ((12 : Int) : ℚ)) = (25 : ℚ) / 12 by norm_num]
  rw [Int.ceil_eq_iff]
  constructor
  · norm_num
  · norm_num

/-- C5: whenever the count succeeds, total pages is the ceiling of
total count over page size, and whenever the requested page exceeds a
positive total-page count the handler short-circuits: it returns the
empty result list with the true total-page value, and the fetch query is
never executed (`fetchQuery = none`). -/
theorem C5_page_overflow (p : SearchParams) (db : SearchDb) (tc : Int)
    (hc : db.countResult = .ok tc)
    (hpos : 0 < totalPagesFor tc p.limit)
    (hov : totalPagesFor tc p.limit < p.page) :
    SearchHandler p db = ⟨.json [] (totalPagesFor tc p.limit) none, none, none⟩ ∧
    totalPagesFor tc p.limit = ⌈(tc : ℚ) / (p.limit : ℚ)⌉ := by
  refine ⟨?_, rfl⟩
  simp only [SearchHandler, hc]
  rw [if_pos ⟨hov, hpos⟩]

/-- C5 witness: with total count 25 and page size 12 the total-page count
is 3; requesting page 10 yields the empty list, pages = 3, and no
executed fetch query. -/
theorem C5_page_overflow_witness :
    totalPagesFor 25 12 = 3 ∧
    SearchHandler { emptyParams with page := 10, offset := 108 } dbCount25Empty =
      ⟨.json [] 3 none, none, none⟩ := by
  constructor
  · exact totalPages_25_12
  · have h := (C5_page_overflow { emptyParams with page := 10, offset := 108 }
      dbCount25Empty 25 rfl (by rw [show ({ emptyParams with page := 10, offset := 108 } :
        SearchParams).limit = 12 from rfl, totalPages_25_12]; decide)
      (by rw [show ({ emptyParams with page := 10, offset := 108 } :
        SearchParams).limit = 12 from rfl, totalPages_25_12]; decide)).1
    rw [show ({ emptyParams with page := 10, offset := 108 } : SearchParams).limit = 12
      from rfl, totalPages_25_12] at h
    exact h

/-- C6: count-phase and fetch-phase failures are asymmetric.  A count
failure yields a success-class JSON response with the empty list and
zero pages (no fetch executed); a fetch failure after a successful count
(on a page that is not short-circuited) yields HTTP status 400 with the
fixed generic message "Something went wrong", independent of the
internal error text. -/
theorem C6_error_asymmetry (p : SearchParams) (db : SearchDb) :
    (∀ e, db.countResult = .error e →
      SearchHandler p db = ⟨.json [] 0 none, none, none⟩) ∧
    (∀ tc e, db.countResult = .ok tc → db.fetchResult = .error e →
      ¬(p.page > totalPagesFor tc p.limit ∧ totalPagesFor tc p.limit > 0) →
      (SearchHandler p db).response = .httpError "Something went wrong" 400) := by
  constructor
  · intro e he
    simp [SearchHandler, he]
  · intro tc e hc hf hno
    simp only [SearchHandler, hc]
    rw [if_neg hno]
    simp [hf]

/-- C6 witness: the theorem applied at two concrete oracles — a failing
count masked as an empty zero-page success, and a failing fetch after a
successful count of 25 surfaced as the generic 400 error. -/
theorem C6_error_asymmetry_witness :
    SearchHandler emptyParams dbCountError = ⟨.json [] 0 none, none, none⟩ ∧
    (SearchHandler emptyParams dbCount25FetchError).response =
      .httpError "Something went wrong" 400 := by
  constructor
  · exact (C6_error_asymmetry emptyParams dbCountError).1 "count failed" rfl
  · refine (C6_error_asymmetry emptyParams dbCount25FetchError).2 25 "disk full" rfl rfl ?_
    rw [show (emptyParams : SearchParams).limit = 12 from rfl, totalPages_25_12]
    decide

/-- C7 counterexample: on a count-query failure the handler encodes only
the result list and the page count — the `total_count` field is absent
from the response — refuting the claim that every response reports all
three of list, pages and total count. -/
theorem C7_counterexample :
    (SearchHandler emptyParams dbCountError).response = .json [] 0 none ∧
    responseTotalCount (SearchHandler emptyParams dbCountError).response = none := by
  constructor
  · rfl
  · rfl

/-- C7 amended: every JSON response of the search handler carries a
(possibly empty) result list and the page count, but the total matching
count is reported only on the full success path; the count-failure and
page-overflow responses omit it, and a fetch failure produces a plain
HTTP error instead of a JSON body. -/
theorem C7_response_fields (p : SearchParams) (db : SearchDb) :
    (∀ e, db.countResult = .error e →
      (SearchHandler p db).response = .json [] 0 none) ∧
    (∀ tc, db.countResult = .ok tc →
      (p.page > totalPagesFor tc p.limit ∧ totalPagesFor tc p.limit > 0) →
      (SearchHandler p db).response = .json [] (totalPagesFor tc p.limit) none) ∧
    (∀ tc rows, db.countResult = .ok tc → db.fetchResult = .ok rows →
      ¬(p.page > totalPagesFor tc p.limit ∧ totalPagesFor tc p.limit > 0) →
      (SearchHandler p db).response =
        .json (rows.filterMap Except.toOption) (totalPagesFor tc p.limit) (some tc)) ∧
    (∀ tc e, db.countResult = .ok tc → db.fetchResult = .error e →
      ¬(p.page > totalPagesFor tc p.limit ∧ totalPagesFor tc p.limit > 0) →
      (SearchHandler p db).response = .httpError "Something went wrong" 400) := by
  refine ⟨?_, ?_, ?_, ?_⟩
  · intro e he
    simp [SearchHandler, he]
  · intro tc hc hov
    simp only [SearchHandler, hc]
    rw [if_pos hov]
  · intro tc rows hc hf hno
    simp only [SearchHandler, hc]
    rw [if_neg hno]
    simp [hf]
  · intro tc e hc hf hno
    simp only [SearchHandler, hc]
    rw [if_neg hno]
    simp [hf]

/-- C7 witness: the amended statement applied at concrete oracles — the
success path reports all three fields (list, pages, total count) while
the count-failure path omits the total count. -/
theorem C7_response_fields_witness :
    (SearchHandler emptyParams dbCount25Empty).response = .json [] 3 (some 25) ∧
    (SearchHandler emptyParams dbCountError).response = .json [] 0 none := by
  constructor
  · have h := (C7_response_fields emptyParams dbCount25Empty).2.2.1 25 [] rfl rfl
      (by rw [show (emptyParams : SearchParams).limit = 12 from rfl, totalPages_25_12]; decide)
    rw [show (emptyParams : SearchParams).limit = 12 from rfl, totalPages_25_12] at h
    exact h
  · exact (C7_response_fields emptyParams dbCountError).1 "count failed" rfl

set_option maxRecDepth 100000 in
/-- C8: the city-listing endpoint rejects an empty city path segment with
a 400 client error before any database call; with a non-empty city it
runs the fixed query (top-10 by discount, duplicates excluded, no
distance column — rows decoded with `hasExtraFields = false`), and an
unknown city (no rows) yields the empty JSON array rather than an error. -/
theorem C8_city_listing (city : String) (db : CityDb) :
    (city = "" → GetRestaurantsByCityHandler city db =
      ⟨.httpError "City is required" 400, none, none⟩) ∧
    (city ≠ "" → db.queryResult = .ok [] →
      GetRestaurantsByCityHandler city db =
        ⟨.json [], some cityListingQuery, some false⟩) ∧
    hasSubstrCh "LIMIT 10".toList cityListingQuery.toList = true ∧
    hasSubstrCh "ORDER BY r.effective_discount DESC".toList cityListingQuery.toList = true ∧
    hasSubstrCh "r.is_duplicate = false".toList cityListingQuery.toList = true ∧
    hasSubstrCh "as distance".toList cityListingQuery.toList = false := by
  refine ⟨?_, ?_, by decide, by decide, by decide, by decide⟩
  · intro h
    simp [GetRestaurantsByCityHandler, h]
  · intro h hq
    simp [GetRestaurantsByCityHandler, h, hq]

/-- C8 witness: the theorem applied at the empty city segment (client
error, no database call) and at an unknown city (empty list, database
called with the fixed query, bare decode mode). -/
theorem C8_city_listing_witness :
    GetRestaurantsByCityHandler "" cityDbEmpty =
      ⟨.httpError "City is required" 400, none, none⟩ ∧
    GetRestaurantsByCityHandler "Atlantis" cityDbEmpty =
      ⟨.json [], some cityListingQuery, some false⟩ := by
  constructor
  · exact (C8_city_listing "" cityDbEmpty).1 rfl
  · exact (C8_city_listing "Atlantis" cityDbEmpty).2.1 (by decide) rfl

theorem args_take2 {p : SearchParams} (hloc : p.hasLocation = true) :
    (buildAcc p).args.take 2 = [.rat p.lon, .rat p.lat] := by
  rcases args_ext_from_acc0 p with ⟨t, ht⟩
  rw [ht, args_acc0, if_pos hloc, List.append_assoc]
  exact take_left_of_append [SqlArg.rat p.lon, SqlArg.rat p.lat] _

/-- C9: whenever the lat and lon query parameters are both non-empty,
geographic mode activates even if a coordinate fails numeric parsing —
the unparsable coordinate silently becomes 0 (the discarded-error
pattern around `strconv.ParseFloat`), and the distance expression is
bound to the zero-defaulted point (arguments 1 and 2 of the built
query are the longitude and latitude exactly as parsed). -/
theorem C9_unparsable_coords (query : String → String)
    (hlat : query "lat" ≠ "") (hlon : query "lon" ≠ "") :
    (ParseSearchParams query).hasLocation = true ∧
    (parseFloatGo (query "lat") = none → (ParseSearchParams query).lat = 0) ∧
    (parseFloatGo (query "lon") = none → (ParseSearchParams query).lon = 0) ∧
    (buildAcc (ParseSearchParams query)).args.take 2 =
      [.rat (ParseSearchParams query).lon, .rat (ParseSearchParams query).lat] := by
  have hloc : (ParseSearchParams query).hasLocation = true := by
    simp [ParseSearchParams, hlat, hlon]
  refine ⟨hloc, ?_, ?_, args_take2 hloc⟩
  · intro hp
    simp [ParseSearchParams, hlat, hlon, floatOrZero, hp]
  · intro hp
    simp [ParseSearchParams, hlat, hlon, floatOrZero, hp]

/-- C9 witness: the theorem applied to the query `lat=abc&lon=77.5946`,
whose latitude fails parsing: geographic mode is active and the latitude
is zero-defaulted. -/
theorem C9_unparsable_coords_witness :
    (ParseSearchParams c9Query).hasLocation = true ∧
    (ParseSearchParams c9Query).lat = 0 := by
  have h := C9_unparsable_coords c9Query (by decide) (by decide)
  exact ⟨h.1, h.2.1 (by decide)⟩

theorem args_acc4 (p : SearchParams) : (acc4 p).args =
    (acc3 p).args ++ (if p.cuisines ≠ "" then
      (splitComma p.cuisines).map (fun s => SqlArg.str (trimGo s)) else []) := by
  unfold acc4 cuisinesBlock
  split
  next h => simp [addCond, h]
  next h => simp [addCond, h]

theorem args_acc5 (p : SearchParams) : (acc5 p).args =
    (acc4 p).args ++ (if p.cuisineIds ≠ "" then
      (splitComma p.cuisineIds).map (fun s => SqlArg.str s) else []) := by
  unfold acc5 cuisineIdsBlock
  split
  next h => simp [addCond, h]
  next h => simp [addCond, h]

theorem args_acc7 (p : SearchParams) : (acc7 p).args =
    (acc6 p).args ++ (if p.mealTypes ≠ "" then
      (splitComma p.mealTypes).map (fun s => SqlArg.str (trimGo s)) else []) := by
  unfold acc7 mealTypesBlock
  split
  next h => simp [addCond, h]
  next h => simp [addCond, h]

theorem args_acc8 (p : SearchParams) : (acc8 p).args =
    (acc7 p).args ++ (if p.mealTypeIds ≠ "" then
      (splitComma p.mealTypeIds).map (fun s => SqlArg.str s) else []) := by
  unfold acc8 mealTypeIdsBlock
  split
  next h => simp [addCond, h]
  next h => simp [addCond, h]

theorem mem_buildAcc_of_mem_acc5 {p : SearchParams} {c : List Frag}
    (h : c ∈ (acc5 p).conds) : c ∈ (buildAcc p).conds := by
  rw [conds_buildAcc]
  apply List.mem_append_left
  rw [conds_acc13]
  apply List.mem_append_left
  rw [conds_acc12]
  apply List.mem_append_left
  rw [conds_acc11]
  apply List.mem_append_left
  rw [conds_acc10]
  apply List.mem_append_left
  rw [conds_acc9]
  apply List.mem_append_left
  rw [conds_acc8]
  apply List.mem_append_left
  rw [conds_acc7]
  apply List.mem_append_left
  rw [conds_acc6]
  apply List.mem_append_left
  exact h

theorem mem_buildAcc_of_mem_acc7 {p : SearchParams} {c : List Frag}
    (h : c ∈ (acc7 p).conds) : c ∈ (buildAcc p).conds := by
  rw [conds_buildAcc]
  apply List.mem_append_left
  rw [conds_acc13]
  apply List.mem_append_left
  rw [conds_acc12]
  apply List.mem_append_left
  rw [conds_acc11]
  apply List.mem_append_left
  rw [conds_acc10]
  apply List.mem_append_left
  rw [conds_acc9]
  apply List.mem_append_left
  rw [conds_acc8]
  apply List.mem_append_left
  exact h

theorem mem_buildAcc_of_mem_acc8 {p : SearchParams} {c : List Frag}
    (h : c ∈ (acc8 p).conds) : c ∈ (buildAcc p).conds := by
  rw [conds_buildAcc]
  apply List.mem_append_left
  rw [conds_acc13]
  apply List.mem_append_left
  rw [conds_acc12]
  apply List.mem_append_left
  rw [conds_acc11]
  apply List.mem_append_left
  rw [conds_acc10]
  apply List.mem_append_left
  rw [conds_acc9]
  apply List.mem_append_left
  exact h

theorem args_ext_from_acc5 (p : SearchParams) :
    ∃ t, (buildAcc p).args = (acc5 p).args ++ t :=
  append_ext_trans (args_ext_acc6 p) (append_ext_trans (args_ext_acc7 p)
    (append_ext_trans (args_ext_acc8 p) (append_ext_trans (args_ext_acc9 p)
      (append_ext_trans (args_ext_acc10 p) (append_ext_trans (args_ext_acc11 p)
        (append_ext_trans (args_ext_acc12 p)
          (append_ext_trans (args_ext_acc13 p) (args_ext_dup p))))))))

theorem args_ext_from_acc7 (p : SearchParams) :
    ∃ t, (buildAcc p).args = (acc7 p).args ++ t :=
  append_ext_trans (args_ext_acc8 p) (append_ext_trans (args_ext_acc9 p)
    (append_ext_trans (args_ext_acc10 p) (append_ext_trans (args_ext_acc11 p)
      (append_ext_trans (args_ext_acc12 p)
        (append_ext_trans (args_ext_acc13 p) (args_ext_dup p))))))

theorem args_ext_from_acc8 (p : SearchParams) :
    ∃ t, (buildAcc p).args = (acc8 p).args ++ t :=
  append_ext_trans (args_ext_acc9 p)
    (append_ext_trans (args_ext_acc10 p) (append_ext_trans (args_ext_acc11 p)
      (append_ext_trans (args_ext_acc12 p)
        (append_ext_trans (args_ext_acc13 p) (args_ext_dup p)))))

/-- C10: for each comma-separated list filter, `BuildSearchQueries` emits
one placeholder per comma-separated segment — empty segments included, so
a trailing comma contributes a placeholder bound to the empty string
(after trimming for the name lists; the id lists bind segments as-is,
which is also the empty string for an empty segment).  The argument
vector contains exactly the segment list at the offset where the IN-list
condition's placeholders start, and the condition carries exactly one
placeholder per segment. -/
theorem C10_list_segments (p : SearchParams) :
    (p.cuisines ≠ "" → ∃ pre post : List SqlArg,
      (buildAcc p).args =
        pre ++ (splitComma p.cuisines).map (fun s => SqlArg.str (trimGo s)) ++ post ∧
      cuisinesCond (pre.length + 1) (splitComma p.cuisines).length ∈ (buildAcc p).conds ∧
      (phOf (cuisinesCond (pre.length + 1) (splitComma p.cuisines).length)).length =
        (splitComma p.cuisines).length) ∧
    (p.cuisineIds ≠ "" → ∃ pre post : List SqlArg,
      (buildAcc p).args =
        pre ++ (splitComma p.cuisineIds).map (fun s => SqlArg.str s) ++ post ∧
      cuisineIdsCond (pre.length + 1) (splitComma p.cuisineIds).length ∈ (buildAcc p).conds ∧
      (phOf (cuisineIdsCond (pre.length + 1) (splitComma p.cuisineIds).length)).length =
        (splitComma p.cuisineIds).length) ∧
    (p.mealTypes ≠ "" → ∃ pre post : List SqlArg,
      (buildAcc p).args =
        pre ++ (splitComma p.mealTypes).map (fun s => SqlArg.str (trimGo s)) ++ post ∧
      mealTypesCond (pre.length + 1) (splitComma p.mealTypes).length ∈ (buildAcc p).conds ∧
      (phOf (mealTypesCond (pre.length + 1) (splitComma p.mealTypes).length)).length =
        (splitComma p.mealTypes).length) ∧
    (p.mealTypeIds ≠ "" → ∃ pre post : List SqlArg,
      (buildAcc p).args =
        pre ++ (splitComma p.mealTypeIds).map (fun s => SqlArg.str s) ++ post ∧
      mealTypeIdsCond (pre.length + 1) (splitComma p.mealTypeIds).length ∈
        (buildAcc p).conds ∧
      (phOf (mealTypeIdsCond (pre.length + 1) (splitComma p.mealTypeIds).length)).length =
        (splitComma p.mealTypeIds).length) := by
  refine ⟨?_, ?_, ?_, ?_⟩
  · intro hx
    rcases args_ext_from_acc4 p with ⟨t, ht⟩
    refine ⟨(acc3 p).args, t, ?_, ?_, ?_⟩
    · rw [ht, args_acc4, if_pos hx, List.append_assoc]
    · have hidx := (inv_acc3 p).idx_eq
      apply mem_buildAcc_of_mem_acc4
      rw [conds_acc4, if_pos hx, ← hidx]
      exact List.mem_append_right _ (List.mem_singleton.mpr rfl)
    · simp [phOf_cuisinesCond]
  · intro hx
    rcases args_ext_from_acc5 p with ⟨t, ht⟩
    refine ⟨(acc4 p).args, t, ?_, ?_, ?_⟩
    · rw [ht, args_acc5, if_pos hx, List.append_assoc]
    · have hidx := (inv_acc4 p).idx_eq
      apply mem_buildAcc_of_mem_acc5
      rw [conds_acc5, if_pos hx, ← hidx]
      exact List.mem_append_right _ (List.mem_singleton.mpr rfl)
    · simp [phOf_cuisineIdsCond]
  · intro hx
    rcases args_ext_from_acc7 p with ⟨t, ht⟩
    refine ⟨(acc6 p).args, t, ?_, ?_, ?_⟩
    · rw [ht, args_acc7, if_pos hx, List.append_assoc]
    · have hidx := (inv_acc6 p).idx_eq
      apply mem_buildAcc_of_mem_acc7
      rw [conds_acc7, if_pos hx, ← hidx]
      exact List.mem_append_right _ (List.mem_singleton.mpr rfl)
    · simp [phOf_mealTypesCond]
  · intro hx
    rcases args_ext_from_acc8 p with ⟨t, ht⟩
    refine ⟨(acc7 p).args, t, ?_, ?_, ?_⟩
    · rw [ht, args_acc8, if_pos hx, List.append_assoc]
    · have hidx := (inv_acc7 p).idx_eq
      apply mem_buildAcc_of_mem_acc8
      rw [conds_acc8, if_pos hx, ← hidx]
      exact List.mem_append_right _ (List.mem_singleton.mpr rfl)
    · simp [phOf_mealTypeIdsCond]

/-- C10 witness: the theorem applied to a request whose cuisine list is
`"Italian,"` — two segments, the second empty, yielding two placeholders
with the second bound to the empty string. -/
theorem C10_list_segments_witness :
    ∃ pre post : List SqlArg,
      (buildAcc c10Params).args = pre ++ [SqlArg.str "Italian", SqlArg.str ""] ++ post ∧
      cuisinesCond (pre.length + 1) 2 ∈ (buildAcc c10Params).conds := by
  rcases (C10_list_segments c10Params).1 (by decide) with ⟨pre, post, h1, h2, _⟩
  refine ⟨pre, post, ?_, ?_⟩
  · rw [show (splitComma c10Params.cuisines).map (fun s => SqlArg.str (trimGo s)) =
      [SqlArg.str "Italian", SqlArg.str ""] from by decide] at h1
    exact h1
  · rw [show (splitComma c10Params.cuisines).length = 2 from by decide] at h2
    exact h2
